import Mathlib

/-!
Verification of the boni decision engine (event accumulator, sensor state
machine, single-flight scheduler, quota backoff governor, JSON recovery
decoder) against its specification.  Python floats are modelled as `ℚ`:
every significance weight is a small multiple of 1/2 and every float
operation performed on them by the code (addition, comparison) is exact in
binary64 at these magnitudes, so the rational model is faithful.  The
several `time.time()` calls inside one Python method are modelled as a
single instant `now` passed explicitly.
-/

namespace Boni

/-- Python `int()` on a rational: truncation toward zero. -/
def pyInt (q : ℚ) : ℤ := if 0 ≤ q then ⌊q⌋ else ⌈q⌉

namespace Accumulator

/-- A sensor event (a Python dict in `src/boni/accumulator.py`).  `reason?`
is the optional `"reason"` key (`None` meaning the key is absent); the four
optional stat fields are the keys `consume` scans for behaviour stats.
Stat values are modelled as rationals. -/
structure Event where
  reason? : Option String
  ts : ℚ := 0
  app_name : String := ""
  window_title : String := ""
  idle_seconds : ℤ := 0
  dwell_seconds : ℤ := 0
  clicks_per_min? : Option ℚ := none
  typing_speed? : Option ℚ := none
  backspace_ratio? : Option ℚ := none
  sighs? : Option ℚ := none
  deriving DecidableEq

/-- The `SIGNIFICANCE` table of `accumulator.py` (reason → weight);
`none` for a reason not in the table. -/
def SIGNIFICANCE (r : String) : Option ℚ :=
  if r = "active_window_changed" then some 5
  else if r = "active_window_title_changed" then some (1/2)
  else if r = "window_dwell_timeout" then some 3
  else if r = "system_idle_threshold" then some 2
  else if r = "frustration_pattern" then some 4
  else if r = "sigh_detected" then some 3
  else if r = "rapid_app_switching" then some 3
  else if r = "high_typing_burst" then some 1
  else none

def TRIGGER_THRESHOLD : ℚ := 5

def MIN_INTERVAL_SECONDS : ℚ := 0

def MAX_INTERVAL_SECONDS : ℚ := 120

/-- `SIGNIFICANCE.get(r, d)` in Python. -/
def significanceGetD (r : String) (d : ℚ) : ℚ := (SIGNIFICANCE r).getD d

/-- Mutable state of `EventAccumulator`: buffered events, running score,
window-start and last-trigger timestamps, and the recent-app-switch deque
(`maxlen=10`, front = oldest). -/
structure AccState where
  events : List Event
  score : ℚ
  startedAt : ℚ
  lastTriggerAt : ℚ
  recentAppSwitches : List ℚ
  deriving DecidableEq

/-- `EventAccumulator.__init__` at wall-clock time `t0`. -/
def initState (t0 : ℚ) : AccState :=
  { events := [], score := 0, startedAt := t0, lastTriggerAt := t0,
    recentAppSwitches := [] }

/-- `deque.append` with `maxlen=10`: a full deque discards its oldest entry. -/
def dequePush (q : List ℚ) (t : ℚ) : List ℚ :=
  if q.length < 10 then q ++ [t] else q.drop 1 ++ [t]

/-- The `while` loop of `_detect_rapid_switching`: pop entries from the
front while the front entry is older than 30 seconds. -/
def dropOld (now : ℚ) : List ℚ → List ℚ
  | [] => []
  | t :: ts => if 30 < now - t then dropOld now ts else t :: ts

/-- The synthetic event injected by `_detect_rapid_switching`. -/
def syntheticSwitchEvent (now : ℚ) : Event :=
  { reason? := some "rapid_app_switching", ts := now, app_name := "",
    window_title := "", idle_seconds := 0, dwell_seconds := 0 }

/-- `EventAccumulator._detect_rapid_switching`: the `while` loop prunes
entries older than 30s, then a window of 3 or more switches injects the
synthetic event and clears the window (the direct table access
`SIGNIFICANCE["rapid_app_switching"]` is written with the same default as
`.get`; the key is present, so the default is never used). -/
def detectRapidSwitching (now : ℚ) (s : AccState) : AccState :=
  if 3 ≤ (dropOld now s.recentAppSwitches).length then
    { s with
      events := s.events ++ [syntheticSwitchEvent now],
      score := s.score + significanceGetD "rapid_app_switching" (1/2),
      recentAppSwitches := [] }
  else { s with recentAppSwitches := dropOld now s.recentAppSwitches }

/-- The state mutation performed by `EventAccumulator.add_event` before the
return value is computed: append the event, add its significance to the
score, and on an `active_window_changed` reason feed the app-switch deque
and run rapid-switch detection. -/
def addEventState (now : ℚ) (s : AccState) (e : Event) : AccState :=
  if e.reason?.getD "" = "active_window_changed" then
    detectRapidSwitching now
      { s with
        events := s.events ++ [e],
        score := s.score + significanceGetD (e.reason?.getD "") (1/2),
        recentAppSwitches := dequePush s.recentAppSwitches now }
  else
    { s with
      events := s.events ++ [e],
      score := s.score + significanceGetD (e.reason?.getD "") (1/2) }

/-- `EventAccumulator.add_event`, returning the new state and the boolean
result (the two-`if` return cascade of the source is the disjunction of the
two conditions).  `now` stands for the (coinciding) `time.time()` calls made
during the method. -/
def addEvent (now : ℚ) (s : AccState) (e : Event) : AccState × Bool :=
  (addEventState now s e,
    decide (MAX_INTERVAL_SECONDS ≤ now - s.lastTriggerAt ∧
        (addEventState now s e).events ≠ []) ||
    decide (TRIGGER_THRESHOLD ≤ (addEventState now s e).score ∧
        MIN_INTERVAL_SECONDS ≤ now - s.lastTriggerAt))

/-- Python `round` on a rational: round half to even (banker's rounding). -/
def pyRound (q : ℚ) : ℤ :=
  if q - ⌊q⌋ < 1/2 then ⌊q⌋
  else if 1/2 < q - ⌊q⌋ then ⌊q⌋ + 1
  else if 2 ∣ ⌊q⌋ then ⌊q⌋ else ⌊q⌋ + 1

/-- Python `round(q, 1)`. -/
def round1 (q : ℚ) : ℚ := (pyRound (q * 10) : ℚ) / 10

/-- One step of building `reason_scores`: Python dicts keep insertion order,
so a new reason is appended at the end. -/
def bumpReason (acc : List (String × ℚ)) (r : String) (w : ℚ) : List (String × ℚ) :=
  match acc with
  | [] => [(r, w)]
  | (r0, w0) :: rest =>
    if r0 = r then (r0, w0 + w) :: rest else (r0, w0) :: bumpReason rest r w

/-- The `reason_scores` dict of `consume`, in first-seen order. -/
def reasonScores (events : List Event) : List (String × ℚ) :=
  events.foldl
    (fun acc e =>
      let r := e.reason?.getD "unknown"
      bumpReason acc r (significanceGetD r (1/2)))
    []

/-- Python `max(..., key=...)`: first element attaining the maximal value
(a later element replaces the champion only when strictly greater). -/
def firstMax : List (String × ℚ) → Option (String × ℚ)
  | [] => none
  | p :: rest => some (rest.foldl (fun best q => if best.2 < q.2 then q else best) p)

/-- `dominant` in `consume`. -/
def dominantPattern (events : List Event) : String :=
  match firstMax (reasonScores events) with
  | some p => p.1
  | none => "none"

/-- `behavior_stats` built by `consume`: the latest value per key wins. -/
structure BehaviorStats where
  clicks_per_min? : Option ℚ := none
  typing_speed? : Option ℚ := none
  backspace_ratio? : Option ℚ := none
  sighs? : Option ℚ := none
  deriving DecidableEq

def updateStats (b : BehaviorStats) (e : Event) : BehaviorStats :=
  { clicks_per_min? := (e.clicks_per_min?).orElse (fun _ => b.clicks_per_min?),
    typing_speed? := (e.typing_speed?).orElse (fun _ => b.typing_speed?),
    backspace_ratio? := (e.backspace_ratio?).orElse (fun _ => b.backspace_ratio?),
    sighs? := (e.sighs?).orElse (fun _ => b.sighs?) }

/-- The summary dict returned by `consume`. -/
structure Summary where
  duration_seconds : ℤ
  total_score : ℚ
  event_count : ℕ
  dominant_pattern : String
  app_switches : ℕ
  recent_events : List Event
  behavior_stats : BehaviorStats
  deriving DecidableEq

/-- `EventAccumulator.consume`: build the summary, then reset events,
score and both timestamps (the app-switch deque is not touched). -/
def consume (now : ℚ) (s : AccState) : Summary × AccState :=
  let summary : Summary :=
    { duration_seconds := pyRound (now - s.startedAt),
      total_score := round1 s.score,
      event_count := s.events.length,
      dominant_pattern := dominantPattern s.events,
      app_switches :=
        (s.events.filter (fun e => e.reason? = some "active_window_changed")).length,
      recent_events := s.events.drop (s.events.length - 5),
      behavior_stats := s.events.foldl updateStats {} }
  (summary, { s with events := [], score := 0, startedAt := now, lastTriggerAt := now })

/-- States reachable from a fresh accumulator by any interleaving of
`add_event` and `consume` calls at arbitrary instants. -/
inductive Reach : AccState → Prop where
  | init (t0 : ℚ) : Reach (initState t0)
  | addStep (now : ℚ) (s : AccState) (e : Event) : Reach s → Reach (addEvent now s e).1
  | consumeStep (now : ℚ) (s : AccState) : Reach s → Reach (consume now s).2

/-- The weight `add_event` charges for an event. -/
def eventWeight (e : Event) : ℚ := significanceGetD (e.reason?.getD "") (1/2)

/-- Total weight of a buffer. -/
def eventsWeight (l : List Event) : ℚ := (l.map eventWeight).sum

/-- Number of `rapid_app_switching` events in a buffer. -/
def countRapid (l : List Event) : ℕ :=
  (l.filter (fun e => e.reason? = some "rapid_app_switching")).length

theorem significanceGetD_pos (r : String) : 0 < significanceGetD r (1/2) := by
  unfold significanceGetD SIGNIFICANCE
  split_ifs <;> norm_num [Option.getD_some, Option.getD_none]

theorem significanceGetD_half_int (r : String) :
    ∃ n : ℤ, significanceGetD r (1/2) = (n : ℚ) / 2 := by
  unfold significanceGetD SIGNIFICANCE
  split_ifs <;>
    first
    | (refine ⟨10, ?_⟩; norm_num [Option.getD_some]; done)
    | (refine ⟨1, ?_⟩; norm_num [Option.getD_some, Option.getD_none]; done)
    | (refine ⟨6, ?_⟩; norm_num [Option.getD_some]; done)
    | (refine ⟨4, ?_⟩; norm_num [Option.getD_some]; done)
    | (refine ⟨8, ?_⟩; norm_num [Option.getD_some]; done)
    | (refine ⟨2, ?_⟩; norm_num [Option.getD_some]; done)

theorem significance_rapid : significanceGetD "rapid_app_switching" (1/2) = 3 := by
  decide

theorem significance_window : significanceGetD "active_window_changed" (1/2) = 5 := by
  decide

theorem significance_default (r : String) (h : SIGNIFICANCE r = none) :
    significanceGetD r (1/2) = 1/2 := by
  simp [significanceGetD, h]

theorem eventsWeight_nil : eventsWeight [] = 0 := rfl

theorem eventsWeight_append (l₁ l₂ : List Event) :
    eventsWeight (l₁ ++ l₂) = eventsWeight l₁ + eventsWeight l₂ := by
  simp [eventsWeight]

theorem eventsWeight_singleton (e : Event) : eventsWeight [e] = eventWeight e := by
  simp [eventsWeight]

theorem eventsWeight_half_int (l : List Event) :
    ∃ n : ℤ, eventsWeight l = (n : ℚ) / 2 := by
  induction l with
  | nil => exact ⟨0, by simp [eventsWeight]⟩
  | cons e t ih =>
    obtain ⟨n, hn⟩ := ih
    obtain ⟨m, hm⟩ := significanceGetD_half_int (e.reason?.getD "")
    refine ⟨m + n, ?_⟩
    simp only [eventsWeight, List.map_cons, List.sum_cons] at *
    rw [hn, show eventWeight e = (m : ℚ) / 2 from hm]
    push_cast
    ring

theorem eventWeight_synthetic (now : ℚ) :
    eventWeight (syntheticSwitchEvent now) = 3 := by
  simp only [eventWeight, syntheticSwitchEvent, Option.getD_some]
  exact significance_rapid

/-- Rapid-switch detection preserves the score-equals-total-weight
invariant and can only raise the score. -/
theorem detect_score_eq (now : ℚ) (s : AccState)
    (h : s.score = eventsWeight s.events) :
    (detectRapidSwitching now s).score = eventsWeight (detectRapidSwitching now s).events := by
  unfold detectRapidSwitching
  split
  · simp only [eventsWeight_append, eventsWeight_singleton, eventWeight_synthetic, h,
      significance_rapid]
  · simpa using h

theorem detect_score_le (now : ℚ) (s : AccState) :
    s.score ≤ (detectRapidSwitching now s).score := by
  unfold detectRapidSwitching
  split
  · have := significanceGetD_pos "rapid_app_switching"
    simp only
    linarith
  · simp

theorem addEventState_score_eq (now : ℚ) (s : AccState) (e : Event)
    (h : s.score = eventsWeight s.events) :
    (addEventState now s e).score = eventsWeight (addEventState now s e).events := by
  have hbase : s.score + eventWeight e = eventsWeight (s.events ++ [e]) := by
    rw [eventsWeight_append, eventsWeight_singleton, h]
  unfold addEventState
  split
  · exact detect_score_eq now _ (by simpa [eventWeight] using hbase)
  · simpa [eventWeight] using hbase

/-- Invariant: in every reachable accumulator state the running score is
the total significance weight of the buffered events. -/
theorem reach_score_eq (s : AccState) (h : Reach s) :
    s.score = eventsWeight s.events := by
  induction h with
  | init t0 => simp [initState, eventsWeight_nil]
  | addStep now s e _ ih =>
    simpa [addEvent] using addEventState_score_eq now s e ih
  | consumeStep now s _ _ => simp [consume, eventsWeight_nil]

theorem eventsWeight_nonneg (l : List Event) : 0 ≤ eventsWeight l := by
  induction l with
  | nil => simp [eventsWeight]
  | cons e t ih =>
    have := significanceGetD_pos (e.reason?.getD "")
    simp only [eventsWeight, List.map_cons, List.sum_cons] at *
    have : 0 ≤ eventWeight e := le_of_lt (by simpa [eventWeight] using this)
    linarith

theorem reach_score_nonneg (s : AccState) (h : Reach s) : 0 ≤ s.score :=
  (reach_score_eq s h) ▸ eventsWeight_nonneg s.events

theorem addEventState_events_ne_nil (now : ℚ) (s : AccState) (e : Event) :
    (addEventState now s e).events ≠ [] := by
  unfold addEventState detectRapidSwitching
  split
  · split <;> simp
  · simp

theorem addEventState_score_le (now : ℚ) (s : AccState) (e : Event) :
    s.score + significanceGetD (e.reason?.getD "") (1/2) ≤ (addEventState now s e).score := by
  unfold addEventState
  split
  · exact detect_score_le now _
  · simp

theorem pyRound_intCast (z : ℤ) : pyRound (z : ℚ) = z := by
  unfold pyRound
  rw [Int.floor_intCast, sub_self, if_pos (by norm_num)]

theorem round1_half_int (n : ℤ) : round1 ((n : ℚ) / 2) = (n : ℚ) / 2 := by
  unfold round1
  rw [show ((n : ℚ) / 2) * 10 = ((5 * n : ℤ) : ℚ) by push_cast; ring, pyRound_intCast]
  push_cast
  ring

theorem dequePush_nil (t : ℚ) : dequePush [] t = [t] := rfl

theorem dequePush_small (q : List ℚ) (t : ℚ) (h : q.length < 10) :
    dequePush q t = q ++ [t] := by
  unfold dequePush
  rw [if_pos h]

theorem dropOld_nil (now : ℚ) : dropOld now [] = [] := rfl

theorem dropOld_cons_keep (now t : ℚ) (ts : List ℚ) (h : ¬ 30 < now - t) :
    dropOld now (t :: ts) = t :: ts := by
  simp only [dropOld]
  rw [if_neg h]

theorem detect_no_fire (now : ℚ) (s : AccState)
    (h : (dropOld now s.recentAppSwitches).length < 3) :
    detectRapidSwitching now s =
      { s with recentAppSwitches := dropOld now s.recentAppSwitches } := by
  unfold detectRapidSwitching
  rw [if_neg (by omega)]

theorem detect_fire (now : ℚ) (s : AccState)
    (h : 3 ≤ (dropOld now s.recentAppSwitches).length) :
    detectRapidSwitching now s =
      { s with events := s.events ++ [syntheticSwitchEvent now],
               score := s.score + 3, recentAppSwitches := [] } := by
  unfold detectRapidSwitching
  rw [if_pos h, significance_rapid]

theorem addEventState_window (now : ℚ) (s : AccState) (e : Event)
    (hr : e.reason? = some "active_window_changed") :
    addEventState now s e =
      detectRapidSwitching now
        { s with events := s.events ++ [e], score := s.score + 5,
                 recentAppSwitches := dequePush s.recentAppSwitches now } := by
  unfold addEventState
  rw [hr, Option.getD_some, if_pos rfl, significance_window]

theorem addEventState_other (now : ℚ) (s : AccState) (e : Event)
    (hr : ¬ e.reason?.getD "" = "active_window_changed") :
    addEventState now s e =
      { s with events := s.events ++ [e],
               score := s.score + significanceGetD (e.reason?.getD "") (1/2) } := by
  unfold addEventState
  rw [if_neg hr]

theorem countRapid_append (l₁ l₂ : List Event) :
    countRapid (l₁ ++ l₂) = countRapid l₁ + countRapid l₂ := by
  simp [countRapid]

theorem countRapid_window (e : Event) (h : e.reason? = some "active_window_changed") :
    countRapid [e] = 0 := by
  simp [countRapid, h]

theorem countRapid_synthetic (now : ℚ) : countRapid [syntheticSwitchEvent now] = 1 := by
  simp [countRapid, syntheticSwitchEvent]

/-- C1, counterexample: the claim "`add_event` returns true if and only if
`score ≥ 5.0` and `now − last_trigger ≥ MIN_INTERVAL`, and in particular
returns false whenever the cumulative weight stays below 5.0" is false on
the code: one unrecognized event (weight 0.5) added 120 seconds after the
last trigger returns true through the `MAX_INTERVAL` heartbeat branch even
though the running score is 0.5 < 5.0. -/
theorem c1_counterexample :
    (addEvent 120 (initState 0) { reason? := some "unrecognized" }).2 = true ∧
    (addEvent 120 (initState 0) { reason? := some "unrecognized" }).1.score
      < TRIGGER_THRESHOLD := by
  constructor
  · simp only [addEvent, Bool.or_eq_true, decide_eq_true_eq]
    exact Or.inl ⟨by norm_num [initState, MAX_INTERVAL_SECONDS],
      addEventState_events_ne_nil _ _ _⟩
  · show (addEventState 120 (initState 0) { reason? := some "unrecognized" }).score
        < TRIGGER_THRESHOLD
    rw [addEventState_other 120 (initState 0) { reason? := some "unrecognized" } (by decide)]
    norm_num [initState, TRIGGER_THRESHOLD, significance_default "unrecognized" (by decide)]

/-- C1, amended: `add_event` returns true iff either the heartbeat ceiling
applies (at least `MAX_INTERVAL_SECONDS` = 120 s since the last trigger;
the buffer is necessarily non-empty, the event having just been appended)
or the running score after the add is at least `TRIGGER_THRESHOLD` = 5.0
and at least `MIN_INTERVAL_SECONDS` have elapsed; consequently it returns
false exactly when the cumulative weight stays below 5.0 AND fewer than
120 seconds have elapsed since the last trigger. -/
theorem c1_add_event_trigger_iff (now : ℚ) (s : AccState) (e : Event) :
    (addEvent now s e).2 = true ↔
      (MAX_INTERVAL_SECONDS ≤ now - s.lastTriggerAt ∨
        (TRIGGER_THRESHOLD ≤ (addEvent now s e).1.score ∧
          MIN_INTERVAL_SECONDS ≤ now - s.lastTriggerAt)) := by
  have hne := addEventState_events_ne_nil now s e
  simp [addEvent, hne]

/-- C2: for any reachable accumulator state (any sequence of `add_event`
calls since the last `consume`), the `total_score` field of the summary
returned by `consume` equals the sum of the per-event significance weights
of every buffered event — synthesized rapid-switch events included — where
an event whose reason is not in the table weighs 0.5. -/
theorem c2_consume_total_score (now : ℚ) (s : AccState) (h : Reach s) :
    (consume now s).1.total_score = eventsWeight s.events := by
  have hs := reach_score_eq s h
  obtain ⟨n, hn⟩ := eventsWeight_half_int s.events
  show round1 s.score = eventsWeight s.events
  rw [hs, hn, round1_half_int]

/-- Sample events used in concrete evaluations. -/
def sighSample : Event := { reason? := some "sigh_detected" }

def miscSample : Event := { reason? := some "whatever" }

/-- C2 witness: a concrete reachable state — one `sigh_detected` event
(weight 3.0) and one unrecognized event (weight 0.5) — whose consumed
`total_score` is 3.5, the sum of the weights. -/
theorem c2_consume_total_score_witness :
    (consume 2 (addEvent 1 (addEvent 0 (initState 0) sighSample).1 miscSample).1).1.total_score
      = 7/2 := by
  rw [c2_consume_total_score 2 _
    (Reach.addStep 1 _ _ (Reach.addStep 0 _ _ (Reach.init 0)))]
  show eventsWeight (addEventState 1 (addEventState 0 (initState 0) sighSample) miscSample).events
      = 7/2
  rw [addEventState_other 0 (initState 0) sighSample (by decide)]
  rw [addEventState_other 1 _ miscSample (by decide)]
  show eventsWeight (((initState 0).events ++ [sighSample]) ++ [miscSample]) = 7/2
  rw [eventsWeight_append, eventsWeight_append, eventsWeight_singleton, eventsWeight_singleton]
  have hmisc : eventWeight miscSample = 1/2 := by
    show significanceGetD ((some "whatever").getD "") (1/2) = 1/2
    rw [Option.getD_some]
    exact significance_default "whatever" (by decide)
  norm_num [initState, eventsWeight, hmisc,
    show eventWeight sighSample = 3 from by decide]

/-- C3: `consume` always resets the running score to 0 and the buffer to
empty; `add_event` strictly increases the score (so no operation other than
`consume` sets it to 0); and a `consume` immediately following another
`consume`, with no intervening `add_event`, yields a summary with
`event_count = 0` and `dominant_pattern = "none"`. -/
theorem c3_consume_resets (now now2 : ℚ) (s : AccState) (e : Event) :
    ((consume now s).2.score = 0 ∧ (consume now s).2.events = []) ∧
      s.score < (addEvent now s e).1.score ∧
      ((consume now2 (consume now s).2).1.event_count = 0 ∧
        (consume now2 (consume now s).2).1.dominant_pattern = "none") := by
  refine ⟨⟨rfl, rfl⟩, ?_, rfl, rfl⟩
  have h := addEventState_score_le now s e
  have hp := significanceGetD_pos (e.reason?.getD "")
  show s.score < (addEventState now s e).score
  linarith

/-- C4: starting from a state with an empty switch window, exactly 3
`active_window_changed` events whose timestamps span at most 30 seconds
cause the accumulator to synthesize exactly one `rapid_app_switching`
event (adding its significance 3.0 to the score, for a total of
3·5.0 + 3.0 = 18 over the three adds) and to clear the sliding window, so
a 4th immediately following window-change event does not synthesize
another one. -/
theorem c4_rapid_switching (s : AccState) (e1 e2 e3 e4 : Event) (t1 t2 t3 t4 : ℚ)
    (hq : s.recentAppSwitches = [])
    (h12 : t1 ≤ t2) (h23 : t2 ≤ t3) (h34 : t3 ≤ t4) (hwin : t3 - t1 ≤ 30)
    (hr1 : e1.reason? = some "active_window_changed")
    (hr2 : e2.reason? = some "active_window_changed")
    (hr3 : e3.reason? = some "active_window_changed")
    (hr4 : e4.reason? = some "active_window_changed") :
    countRapid (addEvent t3 (addEvent t2 (addEvent t1 s e1).1 e2).1 e3).1.events
        = countRapid s.events + 1 ∧
      (addEvent t3 (addEvent t2 (addEvent t1 s e1).1 e2).1 e3).1.recentAppSwitches = [] ∧
      (addEvent t3 (addEvent t2 (addEvent t1 s e1).1 e2).1 e3).1.score = s.score + 18 ∧
      countRapid
          (addEvent t4 (addEvent t3 (addEvent t2 (addEvent t1 s e1).1 e2).1 e3).1 e4).1.events
        = countRapid s.events + 1 := by
  have hd1 : dropOld t1 [t1] = [t1] := dropOld_cons_keep _ _ _ (by linarith)
  have hd2 : dropOld t2 [t1, t2] = [t1, t2] := dropOld_cons_keep _ _ _ (by linarith)
  have hd3 : dropOld t3 [t1, t2, t3] = [t1, t2, t3] := dropOld_cons_keep _ _ _ (by linarith)
  have hd4 : dropOld t4 [t4] = [t4] := dropOld_cons_keep _ _ _ (by linarith)
  have hs1 : (addEvent t1 s e1).1 =
      { s with events := s.events ++ [e1], score := s.score + 5,
               recentAppSwitches := [t1] } := by
    show addEventState t1 s e1 = _
    rw [addEventState_window t1 s e1 hr1, hq, dequePush_nil, detect_no_fire]
    · rw [hd1]
    · rw [hd1]; norm_num
  have hs2 : (addEvent t2 (addEvent t1 s e1).1 e2).1 =
      { s with events := (s.events ++ [e1]) ++ [e2], score := s.score + 10,
               recentAppSwitches := [t1, t2] } := by
    show addEventState t2 (addEvent t1 s e1).1 e2 = _
    rw [hs1, addEventState_window t2 _ e2 hr2]
    rw [show dequePush [t1] t2 = [t1, t2] from dequePush_small _ _ (by norm_num)]
    rw [detect_no_fire]
    · rw [hd2]
      congr 1
      ring
    · rw [hd2]; norm_num
  have hs3 : (addEvent t3 (addEvent t2 (addEvent t1 s e1).1 e2).1 e3).1 =
      { s with events := ((s.events ++ [e1]) ++ [e2] ++ [e3]) ++ [syntheticSwitchEvent t3],
               score := s.score + 18, recentAppSwitches := [] } := by
    show addEventState t3 _ e3 = _
    rw [hs2, addEventState_window t3 _ e3 hr3]
    rw [show dequePush [t1, t2] t3 = [t1, t2, t3] from dequePush_small _ _ (by norm_num)]
    rw [detect_fire]
    · congr 1
      ring
    · rw [hd3]
      norm_num
  have hs4 : (addEvent t4 (addEvent t3 (addEvent t2 (addEvent t1 s e1).1 e2).1 e3).1 e4).1 =
      { s with events := (((s.events ++ [e1]) ++ [e2] ++ [e3]) ++ [syntheticSwitchEvent t3]) ++ [e4],
               score := s.score + 23, recentAppSwitches := [t4] } := by
    show addEventState t4 _ e4 = _
    rw [hs3, addEventState_window t4 _ e4 hr4, dequePush_nil, detect_no_fire]
    · rw [hd4]
      congr 1
      ring
    · rw [hd4]; norm_num
  rw [hs4, hs3]
  refine ⟨?_, rfl, rfl, ?_⟩ <;>
    simp [countRapid_append, countRapid_window, countRapid_synthetic, hr1, hr2, hr3, hr4,
      countRapid, syntheticSwitchEvent]

/-- C4 witness: three window changes at t = 0, 1, 2 from a fresh
accumulator synthesize exactly one rapid-switch event, clear the window,
raise the score by 18, and a 4th change at t = 2 adds no second one. -/
theorem c4_rapid_switching_witness :
    countRapid (addEvent 2 (addEvent 1 (addEvent 0 (initState 0)
          { reason? := some "active_window_changed" }).1
          { reason? := some "active_window_changed" }).1
          { reason? := some "active_window_changed" }).1.events
        = countRapid (initState 0).events + 1 ∧
      (addEvent 2 (addEvent 1 (addEvent 0 (initState 0)
          { reason? := some "active_window_changed" }).1
          { reason? := some "active_window_changed" }).1
          { reason? := some "active_window_changed" }).1.recentAppSwitches = [] ∧
      (addEvent 2 (addEvent 1 (addEvent 0 (initState 0)
          { reason? := some "active_window_changed" }).1
          { reason? := some "active_window_changed" }).1
          { reason? := some "active_window_changed" }).1.score = (initState 0).score + 18 ∧
      countRapid (addEvent 2 (addEvent 2 (addEvent 1 (addEvent 0 (initState 0)
          { reason? := some "active_window_changed" }).1
          { reason? := some "active_window_changed" }).1
          { reason? := some "active_window_changed" }).1
          { reason? := some "active_window_changed" }).1.events
        = countRapid (initState 0).events + 1 :=
  c4_rapid_switching (initState 0) _ _ _ _ 0 1 2 2 rfl
    (by norm_num) (by norm_num) (by norm_num) (by norm_num) rfl rfl rfl rfl

/-- C10: under the default configuration (threshold 5.0, minimum interval
0, significance of `active_window_changed` = 5.0), every `add_event` call
carrying an `active_window_changed` reason returns true on its own — each
single app switch immediately requests dispatch — provided the state is
reachable (score non-negative) and the clock is not behind the last
trigger. -/
theorem c10_window_change_triggers (now : ℚ) (s : AccState) (e : Event)
    (hs : Reach s) (hnow : s.lastTriggerAt ≤ now)
    (hr : e.reason? = some "active_window_changed") :
    (addEvent now s e).2 = true := by
  have h0 : 0 ≤ s.score := reach_score_nonneg s hs
  have h5 := addEventState_score_le now s e
  rw [hr] at h5
  rw [Option.getD_some, significance_window] at h5
  simp only [addEvent, Bool.or_eq_true, decide_eq_true_eq]
  right
  constructor
  · show TRIGGER_THRESHOLD ≤ (addEventState now s e).score
    unfold TRIGGER_THRESHOLD
    linarith
  · show MIN_INTERVAL_SECONDS ≤ now - s.lastTriggerAt
    unfold MIN_INTERVAL_SECONDS
    linarith

/-- C10 witness: a single app-switch event added to a fresh accumulator at
the creation instant returns true. -/
theorem c10_window_change_triggers_witness :
    (addEvent 0 (initState 0) { reason? := some "active_window_changed" }).2 = true :=
  c10_window_change_triggers 0 (initState 0) _ (Reach.init 0) le_rfl rfl

end Accumulator

namespace Scheduler

/-!
Model of `BoniApp._trigger_ai_update` (`src/boni/app.py`).  The
`threading.Lock` try-acquire and the release are atomic operations; the
background pipeline body is abstracted to its outcome (a successful result
published to the `_pending_update` mailbox, or an exception caught by the
`except` clause), since the claim is about the locking protocol, not the
pipeline's contents.  `executed` counts background pipelines started,
`dropped` counts triggers discarded at the gate; the state holds no queue,
mirroring the code, which retains no record of a dropped trigger.
-/

/-- Scheduler state: the single-flight lock, the one-slot result mailbox
(`_pending_update`, payload abstracted), and two history counters. -/
structure SchedState where
  updateLockHeld : Bool
  pendingUpdate : Option ℕ
  executed : ℕ
  dropped : ℕ
  deriving DecidableEq

/-- `BoniApp.__init__`: lock free, empty mailbox. -/
def initSched : SchedState :=
  { updateLockHeld := false, pendingUpdate := none, executed := 0, dropped := 0 }

/-- `_trigger_ai_update`: `acquire(blocking=False)`; on failure return at
once (the trigger is dropped), on success start one background pipeline. -/
def triggerAIUpdate (s : SchedState) : SchedState :=
  if s.updateLockHeld then { s with dropped := s.dropped + 1 }
  else { s with updateLockHeld := true, executed := s.executed + 1 }

/-- Outcome of the background body `bg`: a produced update (the `try`
completed and wrote `_pending_update`), or an exception swallowed by the
`except` clause. -/
inductive BgOutcome where
  | ok (update : ℕ)
  | raised
  deriving DecidableEq

/-- Completion of the background thread: on success publish to the mailbox;
in every case the `finally` clause releases the lock. -/
def bgFinish (s : SchedState) (o : BgOutcome) : SchedState :=
  { (match o with
     | .ok u => { s with pendingUpdate := some u }
     | .raised => s) with updateLockHeld := false }

/-- C5: the update scheduler admits at most one in-flight pipeline:
(a) a trigger arriving while the gate is held only bumps the dropped
counter — it starts no pipeline, queues nothing and changes no other state;
(b) the gate is released by the background thread's `finally` on every
outcome, success or exception alike; and
(c) of two near-simultaneous triggers arriving while the gate is free and
before either pipeline finishes, exactly one pipeline executes and the
other trigger is dropped. -/
theorem c5_single_flight :
    (∀ s : SchedState, s.updateLockHeld = true →
        triggerAIUpdate s = { s with dropped := s.dropped + 1 }) ∧
    (∀ (s : SchedState) (o : BgOutcome), (bgFinish s o).updateLockHeld = false) ∧
    (∀ s : SchedState, s.updateLockHeld = false →
        (triggerAIUpdate (triggerAIUpdate s)).executed = s.executed + 1 ∧
        (triggerAIUpdate (triggerAIUpdate s)).dropped = s.dropped + 1) := by
  refine ⟨?_, ?_, ?_⟩
  · intro s h
    simp [triggerAIUpdate, h]
  · intro s o
    cases o <;> simp [bgFinish]
  · intro s h
    simp [triggerAIUpdate, h]

/-- C5 witness: from the initial state, two back-to-back triggers execute
exactly one pipeline and drop the other; a finish on either outcome
releases the gate; a trigger on a held gate only counts a drop. -/
theorem c5_single_flight_witness :
    triggerAIUpdate { initSched with updateLockHeld := true } =
        { initSched with updateLockHeld := true, dropped := 1 } ∧
      (bgFinish initSched BgOutcome.raised).updateLockHeld = false ∧
      (triggerAIUpdate (triggerAIUpdate initSched)).executed = 1 ∧
      (triggerAIUpdate (triggerAIUpdate initSched)).dropped = 1 :=
  ⟨c5_single_flight.1 _ rfl, c5_single_flight.2.1 initSched BgOutcome.raised,
    (c5_single_flight.2.2 initSched rfl).1, (c5_single_flight.2.2 initSched rfl).2⟩

end Scheduler

namespace Brain

/-!
Model of the quota backoff governor of `BoniBrain` (`src/boni/brain.py`):
`_record_quota_backoff`, `_extract_retry_delay_seconds`, `_in_quota_cooldown`,
`_quota_fallback` and the cooldown gate at the top of `react`.  The two
`re.search` patterns are implemented directly as scanners over the character
list; neither pattern needs backtracking (the greedy `\d+` run is followed
only by characters that are not digits), so maximal-munch scanning is exact.
-/

/-- Python `\s` (ASCII range): space, tab, newline, carriage return,
vertical tab, form feed. -/
def isPyWhitespace (c : Char) : Bool :=
  c = ' ' || c = Char.ofNat 9 || c = Char.ofNat 10 || c = Char.ofNat 13 ||
    c = Char.ofNat 11 || c = Char.ofNat 12

/-- Case-insensitive literal match consuming `lit` from the head of `cs`. -/
def matchLit : List Char → List Char → Option (List Char)
  | [], cs => some cs
  | _ :: _, [] => none
  | l :: ls, c :: cs => if c.toLower = l.toLower then matchLit ls cs else none

/-- Maximal run of decimal digits and the rest. -/
def takeDigits : List Char → List Char × List Char
  | [] => ([], [])
  | c :: cs =>
    if c.isDigit then ((c :: (takeDigits cs).1), (takeDigits cs).2)
    else ([], c :: cs)

/-- Python `int` on a digit run. -/
def digitsToNat (ds : List Char) : ℕ :=
  ds.foldl (fun n c => 10 * n + (c.toNat - 48)) 0

/-- The regex tail `(?:\.\d+)?s` (case-insensitive `s`). -/
def matchFracThenS : List Char → Bool
  | [] => false
  | c :: cs =>
    if c = '.' then
      match takeDigits cs with
      | ([], _) => false
      | (_ :: _, rest) =>
        match rest with
        | c2 :: _ => c2.toLower = 's'
        | [] => false
    else c.toLower = 's'

/-- The optional quote `['\"]?` (39 = apostrophe, 34 = double quote). -/
def skipOptQuote (cs : List Char) : List Char :=
  match cs with
  | c :: rest => if c = Char.ofNat 39 ∨ c = Char.ofNat 34 then rest else cs
  | [] => []

/-- Pattern `retryDelay['\"]?\s*:\s*['\"]?(\d+)(?:\.\d+)?s` anchored at the
head of `cs` (IGNORECASE); returns the captured digits' value. -/
def matchRetryDelayAt (cs : List Char) : Option ℕ :=
  match matchLit "retrydelay".data cs with
  | none => none
  | some cs1 =>
    match (skipOptQuote cs1).dropWhile isPyWhitespace with
    | c :: cs4 =>
      if c = ':' then
        match takeDigits (skipOptQuote (cs4.dropWhile isPyWhitespace)) with
        | ([], _) => none
        | (ds, rest) => if matchFracThenS rest then some (digitsToNat ds) else none
      else none
    | [] => none

/-- Pattern `Please retry in\s+(\d+)(?:\.\d+)?s` anchored at the head of
`cs` (IGNORECASE). -/
def matchPleaseRetryAt (cs : List Char) : Option ℕ :=
  match matchLit "please retry in".data cs with
  | none => none
  | some cs1 =>
    match cs1 with
    | c :: _ =>
      if isPyWhitespace c then
        match takeDigits (cs1.dropWhile isPyWhitespace) with
        | ([], _) => none
        | (ds, rest) => if matchFracThenS rest then some (digitsToNat ds) else none
      else none
    | [] => none

/-- `re.search`: try the anchored matcher at each position, left to right. -/
def searchPos (f : List Char → Option ℕ) : List Char → Option ℕ
  | [] => f []
  | c :: cs =>
    match f (c :: cs) with
    | some n => some n
    | none => searchPos f cs

/-- `BoniBrain._extract_retry_delay_seconds`: first matching pattern wins,
a parsed value is clamped to at least 5, no match defaults to 60. -/
def extractRetryDelaySeconds (text : String) : ℕ :=
  match searchPos matchRetryDelayAt text.data with
  | some n => max 5 n
  | none =>
    match searchPos matchPleaseRetryAt text.data with
    | some n => max 5 n
    | none => 60

/-- `needle` is a prefix of `hay`. -/
def prefixAt : List Char → List Char → Bool
  | [], _ => true
  | _ :: _, [] => false
  | a :: as, b :: bs => a = b && prefixAt as bs

/-- `needle` occurs contiguously somewhere in `hay`. -/
def containsList (needle : List Char) (hay : List Char) : Bool :=
  match hay with
  | [] => prefixAt needle []
  | _ :: rest => prefixAt needle hay || containsList needle rest

/-- Python's `in` on strings: contiguous substring. -/
def containsSub (needle hay : String) : Bool := containsList needle.data hay.data

/-- `BoniBrain._record_quota_backoff`, returning the new deadline
(`_quota_retry_after_ts`): no marker, no change; otherwise extend to
`max(current, now + wait)`. -/
def recordQuotaBackoff (deadline now : ℚ) (text : String) : ℚ :=
  if containsSub "RESOURCE_EXHAUSTED" text = false ∧ containsSub "429" text = false then
    deadline
  else max deadline (now + (extractRetryDelaySeconds text : ℚ))

/-- `remaining` in `_quota_fallback`. -/
def quotaRemaining (deadline now : ℚ) : ℤ := max 1 (pyInt (deadline - now))

/-- The `line` selected by `_quota_fallback` from the dominant pattern and
the remaining seconds. -/
def quotaLine (remaining : ℤ) (dominant : String) : String :=
  if dominant = "active_window_changed" ∨ dominant = "rapid_app_switching" then
    "오 뭐 하는 거야? " ++ toString remaining ++ "초만 기다려, 곧 다시 올게!"
  else if dominant = "active_window_title_changed" then
    "앗 바꿨다! " ++ toString remaining ++ "초 뒤에 다시 놀러 올게~"
  else if dominant = "window_dwell_timeout" then
    "열심히 보고 있구나! " ++ toString remaining ++ "초 뒤에 다시 말 걸게 ㅎㅎ"
  else if dominant = "system_idle_threshold" then
    "어디 갔어...? " ++ toString remaining ++ "초 뒤에 다시 기다릴게~"
  else if dominant = "frustration_pattern" ∨ dominant = "sigh_detected" then
    "힘들어 보여... " ++ toString remaining ++ "초 뒤에 다시 올게, 잠깐 쉬어!"
  else
    "잠깐 쉬는 중이야~ " ++ toString remaining ++ "초 뒤에 돌아올게!"

/-- The dict returned by `_quota_fallback` (ASCII field names for the
Korean keys: `line` = 대사, `expression` = 표정, `position` = 위치,
`suggestion` = 제안_메시지, `answer` = 정답_내용). -/
structure FallbackReply where
  line : String
  expression : String
  position : String
  mood : String
  message : String
  suggestion : String
  answer : String
  deriving DecidableEq

/-- `BoniBrain._quota_fallback` (`(accumulated_context or {}).get(
"dominant_pattern", "")` is `""` when the context is `None`). -/
def quotaFallback (deadline now : ℚ) (currentMood : String)
    (acc : Option Accumulator.Summary) : FallbackReply :=
  { line := quotaLine (quotaRemaining deadline now)
      ((acc.map (fun a => a.dominant_pattern)).getD ""),
    expression := "편안",
    position := "활성창_오른쪽",
    mood := currentMood,
    message := quotaLine (quotaRemaining deadline now)
      ((acc.map (fun a => a.dominant_pattern)).getD ""),
    suggestion := "",
    answer := "" }

/-- Result of the cooldown gate at the top of `BoniBrain.react`. -/
inductive ReactOutcome where
  | fallbackReply (r : FallbackReply)
  | networkAttempt
  deriving DecidableEq

/-- Lines 104–105 of `brain.py`: `if self._in_quota_cooldown(): return
self._quota_fallback(...)`, else the method proceeds to the client call. -/
def reactGate (deadline now : ℚ) (currentMood : String)
    (acc : Option Accumulator.Summary) : ReactOutcome :=
  if now < deadline then .fallbackReply (quotaFallback deadline now currentMood acc)
  else .networkAttempt

/-- A rate-limit error text carrying a 12-second wait hint. -/
def sampleQuotaError : String := "429 RESOURCE_EXHAUSTED. Please retry in 12.5s."

theorem prefixAt_self_append (l r : List Char) : prefixAt l (l ++ r) = true := by
  induction l with
  | nil => rfl
  | cons a as ih => simp [prefixAt, ih]

theorem containsList_here (n r : List Char) : containsList n (n ++ r) = true := by
  cases n with
  | nil =>
    cases r with
    | nil => rfl
    | cons c cs => simp [containsList, prefixAt]
  | cons a as =>
    simp only [List.cons_append, containsList, Bool.or_eq_true]
    exact Or.inl (by simpa using prefixAt_self_append (a :: as) r)

theorem containsList_append_left (n x h : List Char) (hh : containsList n h = true) :
    containsList n (x ++ h) = true := by
  induction x with
  | nil => simpa
  | cons c cs ih => simp [containsList, ih]

theorem containsSub_middle (a t b : String) : containsSub t (a ++ t ++ b) = true := by
  unfold containsSub
  rw [String.data_append, String.data_append, List.append_assoc]
  exact containsList_append_left _ _ _ (containsList_here _ _)

theorem quotaLine_contains (remaining : ℤ) (dominant : String) :
    containsSub (toString remaining) (quotaLine remaining dominant) = true := by
  unfold quotaLine
  split_ifs <;> exact containsSub_middle _ _ _

theorem sample_extract_12 : extractRetryDelaySeconds sampleQuotaError = 12 := by
  decide

/-- C6: the backoff governor (a) never decreases the cooldown deadline:
`_record_quota_backoff` either leaves it unchanged or extends it to
`max(current, now + wait)`; (b) the wait parsed from the two textual
patterns is clamped to at least 5 seconds, and an unparseable hint
defaults to 60, so the wait is always at least 5; (c) a rate-limit error
carrying a 12-second hint yields a deadline of at least `now + 12`;
(d) while `now` is before the deadline, `react` skips the network client
and returns the deterministic local fallback, whose message contains the
remaining seconds and preserves the current mood; and (e) the fallback is
a function of the remaining time and the dominant trigger reason alone:
two contexts with the same dominant pattern produce the same reply. -/
theorem c6_quota_backoff :
    (∀ (deadline now : ℚ) (text : String),
        deadline ≤ recordQuotaBackoff deadline now text) ∧
    (∀ text : String, 5 ≤ extractRetryDelaySeconds text) ∧
    (∀ deadline now : ℚ,
        now + 12 ≤ recordQuotaBackoff deadline now sampleQuotaError) ∧
    (∀ (deadline now : ℚ) (mood : String) (acc : Option Accumulator.Summary),
        now < deadline →
          reactGate deadline now mood acc =
              ReactOutcome.fallbackReply (quotaFallback deadline now mood acc) ∧
            containsSub (toString (quotaRemaining deadline now))
                (quotaFallback deadline now mood acc).message = true ∧
            (quotaFallback deadline now mood acc).mood = mood) ∧
    (∀ (deadline now : ℚ) (mood : String) (a₁ a₂ : Accumulator.Summary),
        a₁.dominant_pattern = a₂.dominant_pattern →
          quotaFallback deadline now mood (some a₁) =
            quotaFallback deadline now mood (some a₂)) := by
  refine ⟨?_, ?_, ?_, ?_, ?_⟩
  · intro deadline now text
    unfold recordQuotaBackoff
    split
    · exact le_refl _
    · exact le_max_left _ _
  · intro text
    unfold extractRetryDelaySeconds
    split
    · exact le_max_left _ _
    · split
      · exact le_max_left _ _
      · norm_num
  · intro deadline now
    unfold recordQuotaBackoff
    rw [if_neg (by
      intro hcontra
      exact absurd hcontra.1 (by decide))]
    rw [sample_extract_12]
    push_cast
    exact le_max_right _ _
  · intro deadline now mood acc h
    refine ⟨by simp [reactGate, h], quotaLine_contains _ _, rfl⟩
  · intro deadline now mood a₁ a₂ hdom
    unfold quotaFallback
    rw [show (Option.map (fun a => a.dominant_pattern) (some a₁)).getD "" =
        (Option.map (fun a => a.dominant_pattern) (some a₂)).getD "" by
      simp [hdom]]

/-!
Model of `BoniBrain._parse` (`brain.py` lines 275–300) and of the
`json.loads` it relies on.  `PyVal` is the value a successful `json.loads`
returns (Python ints and floats merged into `ℚ`); the parser below follows
the JSON grammar `json.loads` accepts: strings with the standard escapes
(`\uXXXX` taken as a single code unit; surrogate-pair combination is not
modelled), numbers with optional sign, fraction and exponent and no
leading zeros, arrays, objects with last-duplicate-key-wins, `true`,
`false`, `null`, and nothing but whitespace after the value.  Recursion is
fuel-indexed; every recursive call both consumes fuel and stands for at
least half a character of input, so the fuel `2·length + 4` used by
`loads` never runs out. -/

/-- The value `json.loads` returns. -/
inductive PyVal where
  | pstr : String → PyVal
  | pnum : ℚ → PyVal
  | pbool : Bool → PyVal
  | pnull : PyVal
  | parr : List PyVal → PyVal
  | pobj : List (String × PyVal) → PyVal

def quoteC : Char := Char.ofNat 34

def backslashC : Char := Char.ofNat 92

def obraceC : Char := Char.ofNat 123

def cbraceC : Char := Char.ofNat 125

def backtickC : Char := Char.ofNat 96

/-- JSON whitespace (space, tab, line feed, carriage return). -/
def jsonWS (c : Char) : Bool :=
  c = ' ' || c = Char.ofNat 9 || c = Char.ofNat 10 || c = Char.ofNat 13

def skipWS (cs : List Char) : List Char := cs.dropWhile jsonWS

def parseHexDigit (c : Char) : Option ℕ :=
  if c.isDigit then some (c.toNat - 48)
  else if 97 ≤ c.toLower.toNat ∧ c.toLower.toNat ≤ 102 then some (c.toLower.toNat - 87)
  else none

/-- String body after the opening quote: content and the rest after the
closing quote (fuel ≥ input length suffices). -/
def parseStringChars : ℕ → List Char → Option (List Char × List Char)
  | 0, _ => none
  | _, [] => none
  | fuel+1, c :: cs =>
    if c = quoteC then some ([], cs)
    else if c = backslashC then
      match cs with
      | [] => none
      | e :: cs2 =>
        if e = quoteC ∨ e = backslashC ∨ e = '/' then
          match parseStringChars fuel cs2 with
          | some (out, rem) => some (e :: out, rem)
          | none => none
        else if e = 'b' then
          match parseStringChars fuel cs2 with
          | some (out, rem) => some (Char.ofNat 8 :: out, rem)
          | none => none
        else if e = 'f' then
          match parseStringChars fuel cs2 with
          | some (out, rem) => some (Char.ofNat 12 :: out, rem)
          | none => none
        else if e = 'n' then
          match parseStringChars fuel cs2 with
          | some (out, rem) => some (Char.ofNat 10 :: out, rem)
          | none => none
        else if e = 'r' then
          match parseStringChars fuel cs2 with
          | some (out, rem) => some (Char.ofNat 13 :: out, rem)
          | none => none
        else if e = 't' then
          match parseStringChars fuel cs2 with
          | some (out, rem) => some (Char.ofNat 9 :: out, rem)
          | none => none
        else if e = 'u' then
          match cs2 with
          | h1 :: h2 :: h3 :: h4 :: cs3 =>
            match parseHexDigit h1, parseHexDigit h2, parseHexDigit h3, parseHexDigit h4 with
            | some a, some b, some c3, some d =>
              match parseStringChars fuel cs3 with
              | some (out, rem) => some (Char.ofNat (((a * 16 + b) * 16 + c3) * 16 + d) :: out, rem)
              | none => none
            | _, _, _, _ => none
          | _ => none
        else none
    else if c.toNat < 32 then none
    else
      match parseStringChars fuel cs with
      | some (out, rem) => some (c :: out, rem)
      | none => none

def digitsVal (ds : List Char) : ℕ :=
  ds.foldl (fun n c => 10 * n + (c.toNat - 48)) 0

/-- The optional JSON fraction `(\.\d+)?`, as a rational in `[0, 1)`. -/
def parseFrac : List Char → Option (ℚ × List Char)
  | [] => some (0, [])
  | c :: r =>
    if c = '.' then
      match takeDigits r with
      | ([], _) => none
      | (ds, rest) => some ((digitsVal ds : ℚ) / (10 : ℚ) ^ ds.length, rest)
    else some (0, c :: r)

/-- The optional JSON exponent `([eE][+-]?\d+)?`. -/
def parseExp : List Char → Option (ℤ × List Char)
  | [] => some (0, [])
  | c :: r =>
    if c = 'e' ∨ c = 'E' then
      match r with
      | s :: r2 =>
        if s = '+' then
          match takeDigits r2 with
          | ([], _) => none
          | (ds, rest) => some ((digitsVal ds : ℤ), rest)
        else if s = '-' then
          match takeDigits r2 with
          | ([], _) => none
          | (ds, rest) => some (-(digitsVal ds : ℤ), rest)
        else
          match takeDigits r with
          | ([], _) => none
          | (ds, rest) => some ((digitsVal ds : ℤ), rest)
      | [] => none
    else some (0, c :: r)

/-- A JSON number (no leading zeros, optional minus, fraction, exponent). -/
def parseNumber (cs : List Char) : Option (ℚ × List Char) :=
  match cs with
  | c :: r =>
    if c = '-' then
      match takeDigits r with
      | ([], _) => none
      | (ds, rest) =>
        if 1 < ds.length ∧ ds.headD '0' = '0' then none
        else
          match parseFrac rest with
          | none => none
          | some (f, rest2) =>
            match parseExp rest2 with
            | none => none
            | some (e, rest3) =>
              some (-(((digitsVal ds : ℚ) + f) * (10 : ℚ) ^ e), rest3)
    else
      match takeDigits cs with
      | ([], _) => none
      | (ds, rest) =>
        if 1 < ds.length ∧ ds.headD '0' = '0' then none
        else
          match parseFrac rest with
          | none => none
          | some (f, rest2) =>
            match parseExp rest2 with
            | none => none
            | some (e, rest3) =>
              some ((((digitsVal ds : ℚ) + f) * (10 : ℚ) ^ e), rest3)
  | [] => none

/-- Python-dict assignment on an association list: an existing key keeps
its position and takes the new value, a new key is appended. -/
def objInsert (l : List (String × PyVal)) (k : String) (v : PyVal) :
    List (String × PyVal) :=
  match l with
  | [] => [(k, v)]
  | (k0, v0) :: rest => if k0 = k then (k0, v) :: rest else (k0, v0) :: objInsert rest k v

mutual

/-- A JSON value at the head of the input (after leading whitespace). -/
def parseVal : ℕ → List Char → Option (PyVal × List Char)
  | 0, _ => none
  | fuel+1, cs =>
    match skipWS cs with
    | [] => none
    | c :: rest =>
      if c = quoteC then
        match parseStringChars (rest.length + 1) rest with
        | some (out, rem) => some (.pstr (String.mk out), rem)
        | none => none
      else if c = obraceC then
        match skipWS rest with
        | [] => none
        | c2 :: rest2 =>
          if c2 = cbraceC then some (.pobj [], rest2)
          else
            match parseMembers fuel [] (c2 :: rest2) with
            | some (fields, rem) => some (.pobj fields, rem)
            | none => none
      else if c = '[' then
        match skipWS rest with
        | [] => none
        | c2 :: rest2 =>
          if c2 = ']' then some (.parr [], rest2)
          else
            match parseItems fuel [] (c2 :: rest2) with
            | some (items, rem) => some (.parr items, rem)
            | none => none
      else if prefixAt "true".data (c :: rest) then some (.pbool true, (c :: rest).drop 4)
      else if prefixAt "false".data (c :: rest) then some (.pbool false, (c :: rest).drop 5)
      else if prefixAt "null".data (c :: rest) then some (.pnull, (c :: rest).drop 4)
      else
        match parseNumber (c :: rest) with
        | some (q, rem) => some (.pnum q, rem)
        | none => none

/-- Object members from the first key, accumulating by dict assignment. -/
def parseMembers : ℕ → List (String × PyVal) → List Char →
    Option (List (String × PyVal) × List Char)
  | 0, _, _ => none
  | fuel+1, acc, cs =>
    match skipWS cs with
    | [] => none
    | c :: rest =>
      if c = quoteC then
        match parseStringChars (rest.length + 1) rest with
        | none => none
        | some (key, afterKey) =>
          match skipWS afterKey with
          | [] => none
          | c2 :: rest2 =>
            if c2 = ':' then
              match parseVal fuel rest2 with
              | none => none
              | some (v, afterVal) =>
                match skipWS afterVal with
                | [] => none
                | c3 :: rest3 =>
                  if c3 = ',' then parseMembers fuel (objInsert acc (String.mk key) v) rest3
                  else if c3 = cbraceC then some (objInsert acc (String.mk key) v, rest3)
                  else none
            else none
      else none

/-- Array items from the first item. -/
def parseItems : ℕ → List PyVal → List Char → Option (List PyVal × List Char)
  | 0, _, _ => none
  | fuel+1, acc, cs =>
    match parseVal fuel cs with
    | none => none
    | some (v, afterVal) =>
      match skipWS afterVal with
      | [] => none
      | c :: rest =>
        if c = ',' then parseItems fuel (acc ++ [v]) rest
        else if c = ']' then some (acc ++ [v], rest)
        else none

end

/-- `json.loads`: a single value with nothing but whitespace after it;
`none` is a raised `JSONDecodeError`. -/
def loads (s : String) : Option PyVal :=
  match parseVal (2 * s.data.length + 4) s.data with
  | some (v, rest) => if skipWS rest = [] then some v else none
  | none => none

/-- Python `str.strip()`. -/
def pyStrip (s : String) : String :=
  String.mk (((s.data.dropWhile Char.isWhitespace).reverse.dropWhile
    Char.isWhitespace).reverse)

def fenceMarker : List Char := "```".data

/-- The characters before the next ``` fence (all of them when none). -/
def takeUntilFence : List Char → List Char
  | [] => []
  | c :: cs => if prefixAt fenceMarker (c :: cs) then [] else c :: takeUntilFence cs

/-- Lines 280–284 of `_parse`: on a leading fence take
`text.split("```")[1]`, drop a leading `json`, and strip. -/
def fenceStrip (s : String) : String :=
  if prefixAt fenceMarker s.data then
    pyStrip (String.mk
      (if prefixAt "json".data (takeUntilFence (s.data.drop 3))
       then (takeUntilFence (s.data.drop 3)).drop 4
       else takeUntilFence (s.data.drop 3)))
  else s

/-- `[^{}]*\x7d` after an opening brace: the inner characters when the
first brace met is the closing one. -/
def innerScan : List Char → Option (List Char)
  | [] => none
  | c :: cs =>
    if c = cbraceC then some []
    else if c = obraceC then none
    else
      match innerScan cs with
      | some inner => some (c :: inner)
      | none => none

/-- `re.search(r"\{[^{}]*\}", text)`: the leftmost brace pair containing
no nested braces. -/
def extractBrace : List Char → Option (List Char)
  | [] => none
  | c :: cs =>
    if c = obraceC then
      match innerScan cs with
      | some inner => some (obraceC :: (inner ++ [cbraceC]))
      | none => extractBrace cs
    else extractBrace cs

/-- Matching-brace scan at depth `d` (≥ 1), inclusive of the close. -/
def balancedFrom (d : ℕ) : List Char → Option (List Char)
  | [] => none
  | c :: cs =>
    if c = cbraceC then
      if d = 1 then some [cbraceC]
      else
        match balancedFrom (d - 1) cs with
        | some out => some (cbraceC :: out)
        | none => none
    else if c = obraceC then
      match balancedFrom (d + 1) cs with
      | some out => some (obraceC :: out)
      | none => none
    else
      match balancedFrom d cs with
      | some out => some (c :: out)
      | none => none

/-- The first balanced brace-delimited fragment of the text. -/
def extractBalanced : List Char → Option (List Char)
  | [] => none
  | c :: cs =>
    if c = obraceC then
      match balancedFrom 1 cs with
      | some out => some (obraceC :: out)
      | none => extractBalanced cs
    else extractBalanced cs

def lookupField : List (String × PyVal) → String → Option PyVal
  | [], _ => none
  | (k, v) :: rest, key => if k = key then some v else lookupField rest key

/-- Python `s in items` for a list: `==` against each element (a string
equals only an equal string). -/
def listHas (items : List PyVal) (s : String) : Bool :=
  items.any (fun v => match v with | .pstr t => t = s | _ => false)

/-- Lines 298–299 of `_parse`: copy `대사` to `message` when `message` is
absent.  Python's `in` is dict-key lookup on a dict, element equality on a
list, substring on a string, and a `TypeError` on any other value;
`parsed["message"] = ...` on a list or string is a `TypeError` too.
`none` models the uncaught exception. -/
def fixup (v : PyVal) : Option PyVal :=
  match v with
  | .pobj fields =>
    match lookupField fields "message" with
    | some _ => some (.pobj fields)
    | none =>
      match lookupField fields "대사" with
      | some dae => some (.pobj (objInsert fields "message" dae))
      | none => some (.pobj fields)
  | .parr items =>
    if listHas items "message" then some (.parr items)
    else if listHas items "대사" then none
    else some (.parr items)
  | .pstr s =>
    if containsSub "message" s then some (.pstr s)
    else if containsSub "대사" s then none
    else some (.pstr s)
  | .pnum _ => none
  | .pbool _ => none
  | .pnull => none

/-- `text[:80]`. -/
def take80 (s : String) : String := String.mk (s.data.take 80)

/-- The `{"message": text[:80], "mood": fallback_mood}` dict. -/
def rawFallback (t mood : String) : PyVal :=
  .pobj [("message", .pstr (take80 t)), ("mood", .pstr mood)]

/-- `BoniBrain._parse`: strip, strip a leading code fence, one strict
parse, then the brace-pair regex rescue, then the truncated-raw-text
fallback; a successful parse gets the `message`-key fixup. -/
def boniParse (text fallbackMood : String) : Option PyVal :=
  match loads (fenceStrip (pyStrip text)) with
  | some v => fixup v
  | none =>
    match extractBrace (fenceStrip (pyStrip text)).data with
    | some frag =>
      match loads (String.mk frag) with
      | some v => fixup v
      | none => some (rawFallback (fenceStrip (pyStrip text)) fallbackMood)
    | none => some (rawFallback (fenceStrip (pyStrip text)) fallbackMood)

/-- The decoder as claim C9 words it: strict parse of the text first; if
that fails, strip code-fence wrapping and parse; if that fails, extract
the first balanced JSON object from the text and parse it; if all fail,
return the raw text as the message with the default mood. -/
def parseSpecClaimed (text fallbackMood : String) : Option PyVal :=
  match loads text with
  | some v => fixup v
  | none =>
    match loads (fenceStrip text) with
    | some v => fixup v
    | none =>
      match extractBalanced text.data with
      | some frag =>
        match loads (String.mk frag) with
        | some v => fixup v
        | none => some (.pobj [("message", .pstr text), ("mood", .pstr fallbackMood)])
      | none => some (.pobj [("message", .pstr text), ("mood", .pstr fallbackMood)])

/-- The decoder as claim C9 is amended: strict parse of the
whitespace-stripped text first; if that fails, strip the code fence and
parse; if that fails, extract the first brace pair containing no nested
braces from the fence-stripped text and parse it; if all fail, return the
first 80 characters of the fence-stripped text as the message with the
fallback mood. -/
def parseSpecAmended (text fallbackMood : String) : Option PyVal :=
  match loads (pyStrip text) with
  | some v => fixup v
  | none =>
    match loads (fenceStrip (pyStrip text)) with
    | some v => fixup v
    | none =>
      match extractBrace (fenceStrip (pyStrip text)).data with
      | some frag =>
        match loads (String.mk frag) with
        | some v => fixup v
        | none => some (rawFallback (fenceStrip (pyStrip text)) fallbackMood)
      | none => some (rawFallback (fenceStrip (pyStrip text)) fallbackMood)

theorem prefixAt_cons_shape (a : Char) (as l : List Char)
    (h : prefixAt (a :: as) l = true) : ∃ t, l = a :: t := by
  cases l with
  | nil => simp [prefixAt] at h
  | cons b bs =>
    simp only [prefixAt, Bool.and_eq_true, decide_eq_true_eq] at h
    exact ⟨bs, by rw [h.1]⟩

/-- No JSON value starts with a backtick, so `json.loads` fails on any
text beginning with one. -/
theorem parseVal_backtick (fuel : ℕ) (rest : List Char) :
    parseVal (fuel + 1) (backtickC :: rest) = none := by
  have hws : skipWS (backtickC :: rest) = backtickC :: rest := by
    simp [skipWS, List.dropWhile_cons, show jsonWS backtickC = false from by decide]
  have htd : takeDigits (backtickC :: rest) = ([], backtickC :: rest) := by
    simp [takeDigits, show backtickC.isDigit = false from by decide]
  have hpt : prefixAt "true".data (backtickC :: rest) = false := by
    rw [show "true".data = 't' :: "rue".data from rfl]
    simp [prefixAt, show ('t' = backtickC) = False from by decide]
  have hpf : prefixAt "false".data (backtickC :: rest) = false := by
    rw [show "false".data = 'f' :: "alse".data from rfl]
    simp [prefixAt, show ('f' = backtickC) = False from by decide]
  have hpn : prefixAt "null".data (backtickC :: rest) = false := by
    rw [show "null".data = 'n' :: "ull".data from rfl]
    simp [prefixAt, show ('n' = backtickC) = False from by decide]
  have hnum : parseNumber (backtickC :: rest) = none := by
    simp only [parseNumber]
    rw [if_neg (show ¬ backtickC = '-' from by decide), htd]
  simp only [parseVal, hws]
  rw [if_neg (show ¬ backtickC = quoteC from by decide),
    if_neg (show ¬ backtickC = obraceC from by decide),
    if_neg (show ¬ backtickC = '[' from by decide)]
  simp [hpt, hpf, hpn, hnum]

theorem loads_backtick (s : String) (rest : List Char)
    (hd : s.data = backtickC :: rest) : loads s = none := by
  unfold loads
  rw [hd, show 2 * (backtickC :: rest).length + 4
      = (2 * (backtickC :: rest).length + 3) + 1 from by omega,
    parseVal_backtick]

/-- C9, amended: `_parse` strips whitespace and then behaves exactly as:
strict-parse first; if that fails, strip a leading ``` code fence (a
no-op without one) and parse; if that fails, extract the first brace pair
containing no nested braces from the fence-stripped text and parse it; if
all fail, return the first 80 characters of the fence-stripped text as the
message with the fallback mood; successful parses get the `message`-key
fixup.  (The code fence-strips before its one strict parse; this is
observationally the claimed strict-parse-first order because no valid JSON
begins with a backtick.) -/
theorem c9_parse_precedence (text mood : String) :
    boniParse text mood = parseSpecAmended text mood := by
  unfold boniParse parseSpecAmended
  by_cases hf : prefixAt fenceMarker (pyStrip text).data = true
  · have hfm : fenceMarker = backtickC :: [backtickC, backtickC] := by decide
    rw [hfm] at hf
    obtain ⟨t, ht⟩ := prefixAt_cons_shape _ _ _ hf
    rw [loads_backtick (pyStrip text) t ht]
  · have hfs : fenceStrip (pyStrip text) = pyStrip text := by
      unfold fenceStrip
      rw [if_neg (by simpa using hf)]
    rw [hfs]
    cases hl : loads (pyStrip text) with
    | some v => rfl
    | none => rfl

/-- A response text whose first balanced JSON object is nested: the code's
`\x7b[^\x7b\x7d]*\x7d` regex extracts the inner pair instead. -/
def c9Sample : String := "x \x7b\x22a\x22: \x7b\x22b\x22: null\x7d\x7d"

/-- C9, counterexample: the claim "regex-extract the first balanced JSON
object from the text and parse it" is false on the code: on a text whose
first balanced object contains a nested object, `_parse` recovers the
inner brace pair (the regex `\x7b[^\x7b\x7d]*\x7d` matches no nested
braces), not the balanced object the claim describes, so the decoder's
output differs from the claimed precedence's output. -/
theorem c9_counterexample :
    boniParse c9Sample "chill" = some (PyVal.pobj [("b", PyVal.pnull)]) ∧
      parseSpecClaimed c9Sample "chill"
        = some (PyVal.pobj [("a", PyVal.pobj [("b", PyVal.pnull)])]) ∧
      boniParse c9Sample "chill" ≠ parseSpecClaimed c9Sample "chill" := by
  refine ⟨rfl, rfl, fun h => ?_⟩
  rw [show boniParse c9Sample "chill" = some (PyVal.pobj [("b", PyVal.pnull)]) from rfl,
    show parseSpecClaimed c9Sample "chill"
      = some (PyVal.pobj [("a", PyVal.pobj [("b", PyVal.pnull)])]) from rfl] at h
  simp at h

/-- C6 witness: with a deadline 10 s ahead of a clock at 0 the gate skips
the network client, and the empty error text parses to the 60-second
default, which is at least 5. -/
theorem c6_quota_backoff_witness :
    reactGate 10 0 "chill" none =
        ReactOutcome.fallbackReply (quotaFallback 10 0 "chill" none) ∧
      5 ≤ extractRetryDelaySeconds "" ∧
      (0:ℚ) + 12 ≤ recordQuotaBackoff 0 0 sampleQuotaError :=
  ⟨(c6_quota_backoff.2.2.2.1 10 0 "chill" none (by norm_num)).1,
    c6_quota_backoff.2.1 "",
    c6_quota_backoff.2.2.1 0 0⟩

end Brain

namespace Sensor

/-!
Model of the context/dwell/idle state machine of `SystemSensor`
(`src/boni/sensor.py`): the fields of `__init__` that `_monitor_loop` and
`_on_workspace_activate` read and write, one poll iteration of
`_monitor_loop`, and the workspace-activation callback.  The
behaviour-pattern branch (`_check_behavior_patterns`, gated on its own
10-second timer) reads none of this state and writes only
`_last_behavior_check`, so it is omitted.  An `Obs` is the value of
`collect_trigger_context()` at the loop instant `now`: active app, window
title, and the already-truncated `idle_seconds`. -/

/-- The trigger-state fields of `SystemSensor`. -/
structure SensorState where
  lastContextKey : String
  lastAppName : String
  lastTitle : String
  contextStartedAt : ℚ
  dwellFired : List String
  idleTriggered : Bool
  deriving DecidableEq

/-- `SystemSensor.__init__` at wall-clock time `t0` (default thresholds:
`dwell_minutes = 2` hence 120 s, `idle_threshold_seconds = 10`). -/
def initSensor (t0 : ℚ) : SensorState :=
  { lastContextKey := "", lastAppName := "", lastTitle := "",
    contextStartedAt := t0, dwellFired := [], idleTriggered := false }

/-- Configured thresholds (`max(1, dwell_minutes) * 60` and
`max(1, idle_threshold_seconds)`). -/
structure SensorConfig where
  dwellSecondsThreshold : ℤ
  idleThresholdSeconds : ℤ
  deriving DecidableEq

def defaultConfig : SensorConfig :=
  { dwellSecondsThreshold := max 1 2 * 60, idleThresholdSeconds := max 1 10 }

/-- One observation made by `collect_trigger_context` at instant `now`. -/
structure Obs where
  appName : String
  windowTitle : String
  idleSeconds : ℤ
  now : ℚ
  deriving DecidableEq

/-- `context_key = f"{app_name}::{title}"`. -/
def contextKey (o : Obs) : String := o.appName ++ "::" ++ o.windowTitle

/-- An event as assembled by `_push_event` (timestamp omitted). -/
structure SensorEvent where
  reason : String
  app_name : String
  window_title : String
  idle_seconds : ℤ
  dwell_seconds : ℤ
  deriving DecidableEq

/-- The `(app, title)` key an event was emitted for. -/
def eventKey (e : SensorEvent) : String := e.app_name ++ "::" ++ e.window_title

/-- Python `set.add`. -/
def setAdd (s : List String) (k : String) : List String :=
  if k ∈ s then s else s ++ [k]

/-- The `_push_event` payloads of the four emission sites. -/
def windowChangedEvent (o : Obs) : SensorEvent :=
  { reason := "active_window_changed", app_name := o.appName,
    window_title := o.windowTitle, idle_seconds := o.idleSeconds, dwell_seconds := 0 }

def titleChangedEvent (o : Obs) : SensorEvent :=
  { reason := "active_window_title_changed", app_name := o.appName,
    window_title := o.windowTitle, idle_seconds := o.idleSeconds, dwell_seconds := 0 }

def dwellEvent (o : Obs) (d : ℤ) : SensorEvent :=
  { reason := "window_dwell_timeout", app_name := o.appName,
    window_title := o.windowTitle, idle_seconds := o.idleSeconds, dwell_seconds := d }

def idleEvent (o : Obs) (d : ℤ) : SensorEvent :=
  { reason := "system_idle_threshold", app_name := o.appName,
    window_title := o.windowTitle, idle_seconds := o.idleSeconds, dwell_seconds := d }

/-- Safety-net app-switch branch of the poll loop (observer miss). -/
def stepAppSwitch (o : Obs) (p : SensorState × List SensorEvent) :
    SensorState × List SensorEvent :=
  if p.1.lastAppName ≠ "" ∧ o.appName ≠ "" ∧ o.appName ≠ p.1.lastAppName then
    ({ p.1 with lastContextKey := contextKey o, lastAppName := o.appName,
                lastTitle := o.windowTitle, contextStartedAt := o.now },
      p.2 ++ [windowChangedEvent o])
  else p

/-- Title-changed-inside-same-app branch of the poll loop. -/
def stepTitle (o : Obs) (p : SensorState × List SensorEvent) :
    SensorState × List SensorEvent :=
  if p.1.lastContextKey ≠ "" ∧ o.appName = p.1.lastAppName ∧ o.windowTitle ≠ "" ∧
      o.windowTitle ≠ p.1.lastTitle then
    ({ p.1 with lastTitle := o.windowTitle, lastContextKey := contextKey o,
                contextStartedAt := o.now },
      p.2 ++ [titleChangedEvent o])
  else p

/-- First-iteration initialization branch (`if not self._last_context_key`). -/
def stepInitKey (o : Obs) (p : SensorState × List SensorEvent) :
    SensorState × List SensorEvent :=
  if p.1.lastContextKey = "" then
    ({ p.1 with lastContextKey := contextKey o, lastAppName := o.appName,
                lastTitle := o.windowTitle, contextStartedAt := o.now }, p.2)
  else p

/-- Dwell-timeout branch: fire once per key not yet in the fired set. -/
def stepDwell (cfg : SensorConfig) (o : Obs) (p : SensorState × List SensorEvent) :
    SensorState × List SensorEvent :=
  if contextKey o ≠ "" ∧ cfg.dwellSecondsThreshold ≤ pyInt (o.now - p.1.contextStartedAt) ∧
      ¬ contextKey o ∈ p.1.dwellFired then
    ({ p.1 with dwellFired := setAdd p.1.dwellFired (contextKey o) },
      p.2 ++ [dwellEvent o (pyInt (o.now - p.1.contextStartedAt))])
  else p

/-- Idle-threshold branch with the `< 2` hysteresis re-arm (`elif`). -/
def stepIdle (cfg : SensorConfig) (o : Obs) (dwellSeconds : ℤ)
    (p : SensorState × List SensorEvent) : SensorState × List SensorEvent :=
  if cfg.idleThresholdSeconds ≤ o.idleSeconds ∧ p.1.idleTriggered = false then
    ({ p.1 with idleTriggered := true }, p.2 ++ [idleEvent o dwellSeconds])
  else if o.idleSeconds < 2 then ({ p.1 with idleTriggered := false }, p.2)
  else p

/-- One iteration of `_monitor_loop` (the `dwell_seconds` passed to the
idle event is computed after the context branches, like line 465). -/
def monitorStep (cfg : SensorConfig) (s : SensorState) (o : Obs) :
    SensorState × List SensorEvent :=
  stepIdle cfg o
    (pyInt (o.now - (stepInitKey o (stepTitle o (stepAppSwitch o (s, [])))).1.contextStartedAt))
    (stepDwell cfg o (stepInitKey o (stepTitle o (stepAppSwitch o (s, [])))))

/-- `_on_workspace_activate`: the push-path context-change handler. -/
def workspaceActivate (s : SensorState) (o : Obs) : SensorState × List SensorEvent :=
  if contextKey o ≠ s.lastContextKey then
    ({ s with lastContextKey := contextKey o, lastAppName := o.appName,
              lastTitle := o.windowTitle, contextStartedAt := o.now },
      [windowChangedEvent o])
  else (s, [])

/-- An input to the sensor state machine: a poll-loop iteration or a
workspace-activation notification. -/
inductive SensorInput where
  | poll (o : Obs)
  | activate (o : Obs)
  deriving DecidableEq

def sensorStep (cfg : SensorConfig) (s : SensorState) : SensorInput →
    SensorState × List SensorEvent
  | .poll o => monitorStep cfg s o
  | .activate o => workspaceActivate s o

/-- Run a trace of inputs, collecting all emitted events in order. -/
def runSensor (cfg : SensorConfig) (s : SensorState) :
    List SensorInput → SensorState × List SensorEvent
  | [] => (s, [])
  | i :: is =>
    ((runSensor cfg (sensorStep cfg s i).1 is).1,
      (sensorStep cfg s i).2 ++ (runSensor cfg (sensorStep cfg s i).1 is).2)

/-- Number of dwell-timeout events for context key `k` in an event list. -/
def countDwellFor (k : String) (evs : List SensorEvent) : ℕ :=
  (evs.filter (fun e => e.reason = "window_dwell_timeout" ∧ eventKey e = k)).length

/-- Number of idle-threshold events in an event list. -/
def countIdle (evs : List SensorEvent) : ℕ :=
  (evs.filter (fun e => e.reason = "system_idle_threshold")).length

theorem countDwellFor_append (k : String) (l₁ l₂ : List SensorEvent) :
    countDwellFor k (l₁ ++ l₂) = countDwellFor k l₁ + countDwellFor k l₂ := by
  simp [countDwellFor]

theorem mem_setAdd_self (l : List String) (k : String) : k ∈ setAdd l k := by
  unfold setAdd
  split
  · assumption
  · simp

theorem mem_setAdd_of_mem (l : List String) (k k' : String) (h : k ∈ l) :
    k ∈ setAdd l k' := by
  unfold setAdd
  split
  · exact h
  · simp [h]

theorem countDwellFor_windowChanged (k : String) (o : Obs) :
    countDwellFor k [windowChangedEvent o] = 0 := by
  simp [countDwellFor, windowChangedEvent]

theorem countDwellFor_titleChanged (k : String) (o : Obs) :
    countDwellFor k [titleChangedEvent o] = 0 := by
  simp [countDwellFor, titleChangedEvent]

theorem countDwellFor_idle (k : String) (o : Obs) (d : ℤ) :
    countDwellFor k [idleEvent o d] = 0 := by
  simp [countDwellFor, idleEvent]

theorem countDwellFor_dwellEvent (k : String) (o : Obs) (d : ℤ) :
    countDwellFor k [dwellEvent o d] = if contextKey o = k then 1 else 0 := by
  unfold countDwellFor dwellEvent eventKey contextKey
  by_cases h : o.appName ++ "::" ++ o.windowTitle = k
  · rw [if_pos h]
    simp [h]
  · rw [if_neg h]
    simp [h]

theorem stepAppSwitch_dwell (o : Obs) (p : SensorState × List SensorEvent) (k : String) :
    (stepAppSwitch o p).1.dwellFired = p.1.dwellFired ∧
      countDwellFor k (stepAppSwitch o p).2 = countDwellFor k p.2 := by
  unfold stepAppSwitch
  split
  · exact ⟨rfl, by rw [countDwellFor_append, countDwellFor_windowChanged]; omega⟩
  · exact ⟨rfl, rfl⟩

theorem stepTitle_dwell (o : Obs) (p : SensorState × List SensorEvent) (k : String) :
    (stepTitle o p).1.dwellFired = p.1.dwellFired ∧
      countDwellFor k (stepTitle o p).2 = countDwellFor k p.2 := by
  unfold stepTitle
  split
  · exact ⟨rfl, by rw [countDwellFor_append, countDwellFor_titleChanged]; omega⟩
  · exact ⟨rfl, rfl⟩

theorem stepInitKey_dwell (o : Obs) (p : SensorState × List SensorEvent) (k : String) :
    (stepInitKey o p).1.dwellFired = p.1.dwellFired ∧
      countDwellFor k (stepInitKey o p).2 = countDwellFor k p.2 := by
  unfold stepInitKey
  split
  · exact ⟨rfl, rfl⟩
  · exact ⟨rfl, rfl⟩

theorem stepIdle_dwell (cfg : SensorConfig) (o : Obs) (d : ℤ)
    (p : SensorState × List SensorEvent) (k : String) :
    (stepIdle cfg o d p).1.dwellFired = p.1.dwellFired ∧
      countDwellFor k (stepIdle cfg o d p).2 = countDwellFor k p.2 := by
  unfold stepIdle
  split
  · exact ⟨rfl, by rw [countDwellFor_append, countDwellFor_idle]; omega⟩
  · split
    · exact ⟨rfl, rfl⟩
    · exact ⟨rfl, rfl⟩

theorem stepDwell_dwell (cfg : SensorConfig) (o : Obs)
    (p : SensorState × List SensorEvent) (k : String) :
    (k ∈ p.1.dwellFired → k ∈ (stepDwell cfg o p).1.dwellFired ∧
        countDwellFor k (stepDwell cfg o p).2 = countDwellFor k p.2) ∧
      countDwellFor k (stepDwell cfg o p).2 ≤ countDwellFor k p.2 + 1 ∧
      (countDwellFor k p.2 < countDwellFor k (stepDwell cfg o p).2 →
        k ∈ (stepDwell cfg o p).1.dwellFired) := by
  unfold stepDwell
  split
  · rename_i hc
    refine ⟨?_, ?_, ?_⟩
    · intro hk
      have hne : ¬ contextKey o = k := fun he => hc.2.2 (he ▸ hk)
      refine ⟨mem_setAdd_of_mem _ _ _ hk, ?_⟩
      rw [countDwellFor_append, countDwellFor_dwellEvent, if_neg hne]
      omega
    · rw [countDwellFor_append, countDwellFor_dwellEvent]
      split <;> omega
    · intro hlt
      rw [countDwellFor_append, countDwellFor_dwellEvent] at hlt
      have hck : contextKey o = k := by
        by_contra hne
        rw [if_neg hne] at hlt
        omega
      rw [← hck]
      exact mem_setAdd_self _ _
  · exact ⟨fun h => ⟨h, rfl⟩, by omega, fun h => absurd h (lt_irrefl _)⟩

/-- Per-input master lemma: an input fires a dwell event for key `k` at
most once, never when `k` is already in the fired set, and a fired key is
in the set afterwards; the fired set never shrinks. -/
theorem sensorStep_dwell (cfg : SensorConfig) (s : SensorState) (i : SensorInput)
    (k : String) :
    (k ∈ s.dwellFired → k ∈ (sensorStep cfg s i).1.dwellFired ∧
        countDwellFor k (sensorStep cfg s i).2 = 0) ∧
      countDwellFor k (sensorStep cfg s i).2 ≤ 1 ∧
      (1 ≤ countDwellFor k (sensorStep cfg s i).2 →
        k ∈ (sensorStep cfg s i).1.dwellFired) := by
  cases i with
  | poll o =>
    simp only [sensorStep]
    unfold monitorStep
    have h1 := stepAppSwitch_dwell o (s, []) k
    have h2 := stepTitle_dwell o (stepAppSwitch o (s, [])) k
    have h3 := stepInitKey_dwell o (stepTitle o (stepAppSwitch o (s, []))) k
    have h4 := stepDwell_dwell cfg o (stepInitKey o (stepTitle o (stepAppSwitch o (s, [])))) k
    have h5 := stepIdle_dwell cfg o
      (pyInt (o.now - (stepInitKey o (stepTitle o (stepAppSwitch o (s, [])))).1.contextStartedAt))
      (stepDwell cfg o (stepInitKey o (stepTitle o (stepAppSwitch o (s, []))))) k
    have hc0 : countDwellFor k ((s, ([] : List SensorEvent))).2 = 0 := rfl
    have hf0 : ((s, ([] : List SensorEvent))).1.dwellFired = s.dwellFired := rfl
    refine ⟨?_, ?_, ?_⟩
    · intro hk
      have hmem : k ∈ (stepInitKey o (stepTitle o (stepAppSwitch o (s, [])))).1.dwellFired := by
        rw [h3.1, h2.1, h1.1, hf0]; exact hk
      have h4m := h4.1 hmem
      refine ⟨?_, ?_⟩
      · rw [h5.1]; exact h4m.1
      · rw [h5.2, h4m.2, h3.2, h2.2, h1.2, hc0]
    · rw [h5.2]
      have := h4.2.1
      rw [h3.2, h2.2, h1.2, hc0] at this
      omega
    · intro hge
      rw [h5.2] at hge
      rw [h5.1]
      apply h4.2.2
      rw [h3.2, h2.2, h1.2, hc0]
      omega
  | activate o =>
    simp only [sensorStep]
    unfold workspaceActivate
    split
    · refine ⟨fun h => ⟨h, countDwellFor_windowChanged k o⟩, ?_, ?_⟩
      · rw [show countDwellFor k [windowChangedEvent o] = 0 from countDwellFor_windowChanged k o]
        omega
      · intro h
        rw [show countDwellFor k [windowChangedEvent o] = 0 from countDwellFor_windowChanged k o] at h
        exact absurd h (by omega)
    · refine ⟨fun h => ⟨h, rfl⟩, ?_, ?_⟩
      · show countDwellFor k [] ≤ 1
        rw [show countDwellFor k [] = 0 from rfl]
        omega
      · intro h
        rw [show countDwellFor k ((s, ([] : List SensorEvent))).2 = 0 from rfl] at h
        exact absurd h (by omega)

theorem runSensor_dwell_bound (cfg : SensorConfig) (k : String) :
    ∀ (inputs : List SensorInput) (s : SensorState),
      countDwellFor k (runSensor cfg s inputs).2 ≤ (if k ∈ s.dwellFired then 0 else 1) := by
  intro inputs
  induction inputs with
  | nil =>
    intro s
    have : countDwellFor k (runSensor cfg s []).2 = 0 := rfl
    rw [this]
    split <;> omega
  | cons i is ih =>
    intro s
    rw [runSensor, countDwellFor_append]
    have hstep := sensorStep_dwell cfg s i k
    have hrest := ih (sensorStep cfg s i).1
    by_cases hk : k ∈ s.dwellFired
    · have h1 := hstep.1 hk
      rw [h1.2, if_pos h1.1] at *
      rw [if_pos hk]
      omega
    · rw [if_neg hk]
      by_cases hfired : 1 ≤ countDwellFor k (sensorStep cfg s i).2
      · have hmem := hstep.2.2 hfired
        rw [if_pos hmem] at hrest
        have := hstep.2.1
        omega
      · have h0 : countDwellFor k (sensorStep cfg s i).2 = 0 := by omega
        have hle1 : countDwellFor k (runSensor cfg (sensorStep cfg s i).1 is).2 ≤ 1 := by
          rcases le_or_lt (countDwellFor k (runSensor cfg (sensorStep cfg s i).1 is).2) 1 with h | h
          · exact h
          · by_cases hm : k ∈ (sensorStep cfg s i).1.dwellFired
            · rw [if_pos hm] at hrest; omega
            · rw [if_neg hm] at hrest; omega
        omega

/-- C7, amended: for any thresholds and any trace of poll iterations and
workspace activations from a fresh sensor, a dwell-timeout fires at most
once per `(app, title)` key over the sensor's whole lifetime; the
fired-key set is never cleared — a key once in it stays in it across every
input, context changes included — so after a context change away and back
the same key cannot fire again. -/
theorem c7_dwell_at_most_once (cfg : SensorConfig) (t0 : ℚ)
    (inputs : List SensorInput) (k : String) :
    countDwellFor k (runSensor cfg (initSensor t0) inputs).2 ≤ 1 ∧
      (∀ (s : SensorState) (i : SensorInput),
        k ∈ s.dwellFired → k ∈ (sensorStep cfg s i).1.dwellFired) := by
  constructor
  · have h := runSensor_dwell_bound cfg k inputs (initSensor t0)
    rw [if_neg (by simp [initSensor])] at h
    exact h
  · intro s i hk
    exact ((sensorStep_dwell cfg s i k).1 hk).1

/-- C7 witness: the amended theorem applied to the concrete five-input
trace of the counterexample and to a held key surviving an activation. -/
theorem c7_dwell_at_most_once_witness :
    countDwellFor "A::T"
        (runSensor defaultConfig (initSensor 0)
          [SensorInput.poll { appName := "A", windowTitle := "T", idleSeconds := 0, now := 0 },
           SensorInput.poll { appName := "A", windowTitle := "T", idleSeconds := 0, now := 120 },
           SensorInput.activate { appName := "B", windowTitle := "U", idleSeconds := 0, now := 121 },
           SensorInput.activate { appName := "A", windowTitle := "T", idleSeconds := 0, now := 122 },
           SensorInput.poll { appName := "A", windowTitle := "T", idleSeconds := 0, now := 242 }]).2
        ≤ 1 ∧
      "A::T" ∈ (sensorStep defaultConfig
          { lastContextKey := "A::T", lastAppName := "A", lastTitle := "T",
            contextStartedAt := 0, dwellFired := ["A::T"], idleTriggered := false }
          (SensorInput.activate
            { appName := "B", windowTitle := "U", idleSeconds := 0, now := 1 })).1.dwellFired :=
  ⟨(c7_dwell_at_most_once defaultConfig 0 _ "A::T").1,
    (c7_dwell_at_most_once defaultConfig 0 [] "A::T").2 _ _ (by simp)⟩

/-- C7, counterexample: the claim "the set of already-fired keys is
cleared when a context change occurs, so after the key is evicted by a
context change a later dwell timeout for that same key can fire again" is
false on the code: `_dwell_fired_for_key` is only ever added to.  In the
trace below the key `A::T` dwells past the 120 s threshold and fires,
focus moves to `B::U` and back (two context changes), and a second
over-threshold dwell on `A::T` at t = 242 fires nothing: the whole trace
carries exactly one dwell event and the fired set still holds the key. -/
theorem c7_counterexample :
    countDwellFor "A::T"
        (runSensor defaultConfig (initSensor 0)
          [SensorInput.poll { appName := "A", windowTitle := "T", idleSeconds := 0, now := 0 },
           SensorInput.poll { appName := "A", windowTitle := "T", idleSeconds := 0, now := 120 },
           SensorInput.activate { appName := "B", windowTitle := "U", idleSeconds := 0, now := 121 },
           SensorInput.activate { appName := "A", windowTitle := "T", idleSeconds := 0, now := 122 },
           SensorInput.poll { appName := "A", windowTitle := "T", idleSeconds := 0, now := 242 }]).2
      = 1 ∧
    (runSensor defaultConfig (initSensor 0)
          [SensorInput.poll { appName := "A", windowTitle := "T", idleSeconds := 0, now := 0 },
           SensorInput.poll { appName := "A", windowTitle := "T", idleSeconds := 0, now := 120 },
           SensorInput.activate { appName := "B", windowTitle := "U", idleSeconds := 0, now := 121 },
           SensorInput.activate { appName := "A", windowTitle := "T", idleSeconds := 0, now := 122 },
           SensorInput.poll { appName := "A", windowTitle := "T", idleSeconds := 0, now := 242 }]).1.dwellFired
      = ["A::T"] := by
  have hp0 : pyInt (0:ℚ) = 0 := by norm_num [pyInt]
  have hp120 : pyInt (120:ℚ) = 120 := by norm_num [pyInt]
  have harith : (242:ℚ) - 122 = 120 := by norm_num
  constructor <;>
    simp [runSensor, sensorStep, monitorStep, stepAppSwitch, stepTitle, stepInitKey,
      stepDwell, stepIdle, workspaceActivate, contextKey, initSensor, defaultConfig,
      setAdd, windowChangedEvent, titleChangedEvent, dwellEvent, idleEvent,
      countDwellFor, eventKey, hp0, hp120, harith]

theorem countIdle_append (l₁ l₂ : List SensorEvent) :
    countIdle (l₁ ++ l₂) = countIdle l₁ + countIdle l₂ := by
  simp [countIdle]

theorem countIdle_windowChanged (o : Obs) : countIdle [windowChangedEvent o] = 0 := by
  simp [countIdle, windowChangedEvent]

theorem countIdle_titleChanged (o : Obs) : countIdle [titleChangedEvent o] = 0 := by
  simp [countIdle, titleChangedEvent]

theorem countIdle_dwellEvent (o : Obs) (d : ℤ) : countIdle [dwellEvent o d] = 0 := by
  simp [countIdle, dwellEvent]

theorem countIdle_idleEvent (o : Obs) (d : ℤ) : countIdle [idleEvent o d] = 1 := by
  simp [countIdle, idleEvent]

theorem stepAppSwitch_idle (o : Obs) (p : SensorState × List SensorEvent) :
    (stepAppSwitch o p).1.idleTriggered = p.1.idleTriggered ∧
      countIdle (stepAppSwitch o p).2 = countIdle p.2 := by
  unfold stepAppSwitch
  split
  · exact ⟨rfl, by rw [countIdle_append, countIdle_windowChanged]; omega⟩
  · exact ⟨rfl, rfl⟩

theorem stepTitle_idle (o : Obs) (p : SensorState × List SensorEvent) :
    (stepTitle o p).1.idleTriggered = p.1.idleTriggered ∧
      countIdle (stepTitle o p).2 = countIdle p.2 := by
  unfold stepTitle
  split
  · exact ⟨rfl, by rw [countIdle_append, countIdle_titleChanged]; omega⟩
  · exact ⟨rfl, rfl⟩

theorem stepInitKey_idle (o : Obs) (p : SensorState × List SensorEvent) :
    (stepInitKey o p).1.idleTriggered = p.1.idleTriggered ∧
      countIdle (stepInitKey o p).2 = countIdle p.2 := by
  unfold stepInitKey
  split
  · exact ⟨rfl, rfl⟩
  · exact ⟨rfl, rfl⟩

theorem stepDwell_idle (cfg : SensorConfig) (o : Obs)
    (p : SensorState × List SensorEvent) :
    (stepDwell cfg o p).1.idleTriggered = p.1.idleTriggered ∧
      countIdle (stepDwell cfg o p).2 = countIdle p.2 := by
  unfold stepDwell
  split
  · exact ⟨rfl, by rw [countIdle_append, countIdle_dwellEvent]; omega⟩
  · exact ⟨rfl, rfl⟩

theorem stepIdle_spec (cfg : SensorConfig) (o : Obs) (d : ℤ)
    (p : SensorState × List SensorEvent) :
    (p.1.idleTriggered = false → cfg.idleThresholdSeconds ≤ o.idleSeconds →
        countIdle (stepIdle cfg o d p).2 = countIdle p.2 + 1 ∧
          (stepIdle cfg o d p).1.idleTriggered = true) ∧
      (p.1.idleTriggered = true →
        countIdle (stepIdle cfg o d p).2 = countIdle p.2 ∧
          ((stepIdle cfg o d p).1.idleTriggered = false ↔ o.idleSeconds < 2)) := by
  unfold stepIdle
  split
  · rename_i hc
    refine ⟨fun _ _ => ⟨by rw [countIdle_append, countIdle_idleEvent], rfl⟩, ?_⟩
    intro htrue
    rw [htrue] at hc
    exact absurd hc.2 (by simp)
  · rename_i hc
    rw [not_and_or] at hc
    split
    · rename_i hlt
      refine ⟨fun hfalse hth => ?_, fun htrue => ⟨rfl, by simp [hlt]⟩⟩
      rcases hc with h | h
      · exact absurd hth h
      · rw [hfalse] at h
        exact absurd rfl h
    · rename_i hge
      refine ⟨fun hfalse hth => ?_, fun htrue => ⟨rfl, by simp [htrue, hge]⟩⟩
      rcases hc with h | h
      · exact absurd hth h
      · rw [hfalse] at h
        exact absurd rfl h

/-- The idle flag and idle-event count across one full poll iteration. -/
theorem monitorStep_idle (cfg : SensorConfig) (s : SensorState) (o : Obs) :
    (s.idleTriggered = false → cfg.idleThresholdSeconds ≤ o.idleSeconds →
        countIdle (monitorStep cfg s o).2 = 1 ∧
          (monitorStep cfg s o).1.idleTriggered = true) ∧
      (s.idleTriggered = true →
        countIdle (monitorStep cfg s o).2 = 0 ∧
          ((monitorStep cfg s o).1.idleTriggered = false ↔ o.idleSeconds < 2)) := by
  unfold monitorStep
  have h1 := stepAppSwitch_idle o (s, [])
  have h2 := stepTitle_idle o (stepAppSwitch o (s, []))
  have h3 := stepInitKey_idle o (stepTitle o (stepAppSwitch o (s, [])))
  have h4 := stepDwell_idle cfg o (stepInitKey o (stepTitle o (stepAppSwitch o (s, []))))
  have h5 := stepIdle_spec cfg o
    (pyInt (o.now - (stepInitKey o (stepTitle o (stepAppSwitch o (s, [])))).1.contextStartedAt))
    (stepDwell cfg o (stepInitKey o (stepTitle o (stepAppSwitch o (s, [])))))
  have hflag : (stepDwell cfg o (stepInitKey o (stepTitle o
      (stepAppSwitch o (s, []))))).1.idleTriggered = s.idleTriggered := by
    rw [h4.1, h3.1, h2.1, h1.1]
  have hcount : countIdle (stepDwell cfg o (stepInitKey o (stepTitle o
      (stepAppSwitch o (s, []))))).2 = 0 := by
    rw [h4.2, h3.2, h2.2, h1.2]
    rfl
  constructor
  · intro hfalse hth
    have := h5.1 (by rw [hflag]; exact hfalse) hth
    rw [hcount] at this
    exact this
  · intro htrue
    have := h5.2 (by rw [hflag]; exact htrue)
    rw [hcount] at this
    exact this

/-- Whether an input keeps the machine inside a continuous idle episode
(no poll observation drops idle below the 2-second hysteresis bound;
workspace activations do not touch the idle flag). -/
def keepsIdleEpisode (i : SensorInput) : Prop :=
  match i with
  | .poll o => 2 ≤ o.idleSeconds
  | .activate _ => True

theorem workspaceActivate_idle (s : SensorState) (o : Obs) :
    (workspaceActivate s o).1.idleTriggered = s.idleTriggered ∧
      countIdle (workspaceActivate s o).2 = 0 := by
  unfold workspaceActivate
  split
  · exact ⟨rfl, countIdle_windowChanged o⟩
  · exact ⟨rfl, rfl⟩

/-- While the idle flag is set and no reading re-arms it, no further idle
event is emitted along the whole trace. -/
theorem runSensor_idle_quiet (cfg : SensorConfig) :
    ∀ (inputs : List SensorInput) (s : SensorState),
      s.idleTriggered = true → (∀ i ∈ inputs, keepsIdleEpisode i) →
      countIdle (runSensor cfg s inputs).2 = 0 ∧
        (runSensor cfg s inputs).1.idleTriggered = true := by
  intro inputs
  induction inputs with
  | nil => exact fun s hs _ => ⟨rfl, hs⟩
  | cons i is ih =>
    intro s hs hkeep
    have hstep : countIdle (sensorStep cfg s i).2 = 0 ∧
        (sensorStep cfg s i).1.idleTriggered = true := by
      cases i with
      | poll o =>
        show countIdle (monitorStep cfg s o).2 = 0 ∧
          (monitorStep cfg s o).1.idleTriggered = true
        have h := (monitorStep_idle cfg s o).2 hs
        have hk : 2 ≤ o.idleSeconds :=
          hkeep (SensorInput.poll o) (List.mem_cons_self _ _)
        refine ⟨h.1, ?_⟩
        rcases Bool.eq_false_or_eq_true (monitorStep cfg s o).1.idleTriggered with ht | hf
        · exact ht
        · exact absurd (h.2.mp hf) (by omega)
      | activate o =>
        show countIdle (workspaceActivate s o).2 = 0 ∧
          (workspaceActivate s o).1.idleTriggered = true
        have h := workspaceActivate_idle s o
        exact ⟨h.2, h.1.trans hs⟩
    have hrest := ih (sensorStep cfg s i).1 hstep.2 (fun j hj => hkeep j (by simp [hj]))
    rw [runSensor, countIdle_append, hstep.1, hrest.1]
    exact ⟨rfl, hrest.2⟩

/-- C8: the idle-threshold event fires at most once per continuous idle
episode: (a) a poll with the flag clear and idle at or past the threshold
emits exactly one `system_idle_threshold` event and sets the flag; (b) with
the flag set a poll emits no idle event, and clears the flag exactly when
idle drops below 2; (c) along any trace in which idle never drops below 2,
a set flag stays set and no idle event is emitted at all; (d) after a
reading below 2 re-arms the flag, a reading at or past the threshold fires
again. -/
theorem c8_idle_once_per_episode (cfg : SensorConfig) :
    (∀ (s : SensorState) (o : Obs), s.idleTriggered = false →
        cfg.idleThresholdSeconds ≤ o.idleSeconds →
        countIdle (monitorStep cfg s o).2 = 1 ∧
          (monitorStep cfg s o).1.idleTriggered = true) ∧
      (∀ (s : SensorState) (o : Obs), s.idleTriggered = true →
        countIdle (monitorStep cfg s o).2 = 0 ∧
          ((monitorStep cfg s o).1.idleTriggered = false ↔ o.idleSeconds < 2)) ∧
      (∀ (inputs : List SensorInput) (s : SensorState),
        s.idleTriggered = true → (∀ i ∈ inputs, keepsIdleEpisode i) →
        countIdle (runSensor cfg s inputs).2 = 0) ∧
      (∀ (s : SensorState) (o₁ o₂ : Obs), s.idleTriggered = true →
        o₁.idleSeconds < 2 → cfg.idleThresholdSeconds ≤ o₂.idleSeconds →
        countIdle (monitorStep cfg (monitorStep cfg s o₁).1 o₂).2 = 1) := by
  refine ⟨fun s o h1 h2 => (monitorStep_idle cfg s o).1 h1 h2,
    fun s o h => (monitorStep_idle cfg s o).2 h,
    fun inputs s h1 h2 => (runSensor_idle_quiet cfg inputs s h1 h2).1,
    fun s o₁ o₂ hs h1 h2 => ?_⟩
  have ha := (monitorStep_idle cfg s o₁).2 hs
  have hreset : (monitorStep cfg s o₁).1.idleTriggered = false := ha.2.mpr h1
  exact ((monitorStep_idle cfg (monitorStep cfg s o₁).1 o₂).1 hreset h2).1

/-- C8 witness: with the default 10-second threshold, idle 10 fires from a
fresh sensor; idle 30 with the flag set emits nothing; idle 0 re-arms; and
the re-arm then re-fire pair emits exactly one event. -/
theorem c8_idle_once_per_episode_witness :
    countIdle (monitorStep defaultConfig (initSensor 0)
        { appName := "A", windowTitle := "T", idleSeconds := 10, now := 1 }).2 = 1 ∧
      countIdle (monitorStep defaultConfig
        { lastContextKey := "A::T", lastAppName := "A", lastTitle := "T",
          contextStartedAt := 0, dwellFired := [], idleTriggered := true }
        { appName := "A", windowTitle := "T", idleSeconds := 30, now := 2 }).2 = 0 ∧
      countIdle (monitorStep defaultConfig
          (monitorStep defaultConfig
            { lastContextKey := "A::T", lastAppName := "A", lastTitle := "T",
              contextStartedAt := 0, dwellFired := [], idleTriggered := true }
            { appName := "A", windowTitle := "T", idleSeconds := 0, now := 3 }).1
          { appName := "A", windowTitle := "T", idleSeconds := 10, now := 4 }).2 = 1 :=
  ⟨((c8_idle_once_per_episode defaultConfig).1 _ _ rfl (by norm_num [defaultConfig])).1,
    ((c8_idle_once_per_episode defaultConfig).2.1 _ _ rfl).1,
    (c8_idle_once_per_episode defaultConfig).2.2.2 _ _ _ rfl (by norm_num)
      (by norm_num [defaultConfig])⟩

end Sensor

end Boni
